import Mathlib

/-!
# ProjectReader (src/ProjectReader.cpp)

A shallow embedding of the project-document reader.  The reader walks an
already built DOM tree and turns it into creation calls on the main window,
raising errors on its XML stream reader as it goes.

* The DOM tree (`DomTree`, `QDomNode`, `QDomElement`) and the accessors the
  reader uses are modelled concretely.
* The string conversions of the Qt library (`toInt`, `toFloat`,
  `QString::number`, `tr`, `arg`) and the constant `NULL_UID` are not defined
  in ProjectReader.cpp and are taken as parameters (`Qt`).
* The main window is an external stateful object; it is a pair of functions
  that see the calls received so far.
* The reader state carries the error slot of the stream reader, and two
  logs: the calls the window has received and the messages raised.
-/

set_option autoImplicit false

namespace MapMap

/-! ## DOM model -/

/-- A node of a parsed document. -/
inductive DomTree where
  | element (tagName : String) (attrs : List (String × String)) (children : List DomTree)
  | text (data : String)
  | cdata (data : String)
  | comment (data : String)
  deriving Repr

/-- A `QDomNode` handle: null, or a node of the tree. -/
inductive QDomNode where
  | null
  | node (t : DomTree)
  deriving Repr

/-- A `QDomElement` handle: null, or an element with its tag, attributes and children. -/
inductive QDomElement where
  | null
  | elem (tagName : String) (attrs : List (String × String)) (children : List DomTree)
  deriving Repr

/-- `QDomNode::isNull`. -/
def QDomNode.isNull : QDomNode → Bool
  | .null => true
  | .node _ => false

/-- `QDomElement::isNull`. -/
def QDomElement.isNull : QDomElement → Bool
  | .null => true
  | .elem _ _ _ => false

/-- `QDomNode::toElement`: the element when the node is one, the null element otherwise. -/
def QDomNode.toElement : QDomNode → QDomElement
  | .node (.element t a c) => .elem t a c
  | _ => .null

/-- `QDomElement::tagName` (empty for the null element). -/
def QDomElement.tagName : QDomElement → String
  | .null => ""
  | .elem t _ _ => t

/-- The attributes of an element, by name (none for the null element). -/
def QDomElement.attributes : QDomElement → List (String × String)
  | .null => []
  | .elem _ attrs _ => attrs

/-- `QDomElement::attribute(name, defValue)`: the value of the attribute named
`name`, or `defValue` when the element has no such attribute. -/
def QDomElement.attribute (e : QDomElement) (name defValue : String) : String :=
  (e.attributes.lookup name).getD defValue

/-- The node of the tree seen as an element: `toElement` of its handle. -/
def DomTree.toElement (t : DomTree) : QDomElement :=
  (QDomNode.node t).toElement

/-- `QDomNode::childNodes` (empty for the null element). -/
def QDomElement.childNodes : QDomElement → List DomTree
  | .null => []
  | .elem _ _ c => c

/-- `QDomNodeList::at`: the null node when the index is out of range. -/
def nodeAt (l : List DomTree) (i : Nat) : QDomNode :=
  match l.get? i with
  | some t => .node t
  | none => .null

/-- The first element named `name` in a list of sibling nodes. -/
def firstElementNamed (name : String) : List DomTree → QDomElement
  | [] => .null
  | .element t a c :: rest => if t = name then .elem t a c else firstElementNamed name rest
  | _ :: rest => firstElementNamed name rest

/-- `QDomNode::firstChildElement(tagName)`. -/
def QDomElement.firstChildElement (e : QDomElement) (name : String) : QDomElement :=
  firstElementNamed name e.childNodes

mutual
/-- The text of a node as `QDomElement::text` collects it: the data of text and
CDATA nodes, the text of elements, nothing for other nodes. -/
def DomTree.innerText : DomTree → String
  | .element _ _ c => DomTree.textList c
  | .text d => d
  | .cdata d => d
  | .comment _ => ""
/-- Concatenated text of a list of siblings. -/
def DomTree.textList : List DomTree → String
  | [] => ""
  | t :: rest => DomTree.innerText t ++ DomTree.textList rest
end

/-- `QDomElement::text` (empty for the null element). -/
def QDomElement.text : QDomElement → String
  | .null => ""
  | .elem _ _ c => DomTree.textList c



/-- A `QDomDocument` whose `setContent` succeeded, seen through `documentElement`. -/
structure QDomDocument where
  documentElement : QDomElement
  deriving Repr

/-! ## What ProjectReader.cpp uses from Qt and from the project headers -/

/-- The conversions of `QString` and the constant `NULL_UID`, none of which is
defined in ProjectReader.cpp.  `intOf` and `floatOf` are the conversions
together with their `ok` flag (`none` when the conversion fails); `F` is the
type of floating-point values and `zero` its `0.0`. -/
structure Qt (F : Type) where
  NULL_UID : Int
  zero : F
  intOf : String → Option Int
  floatOf : String → Option F
  number : Int → String
  tr : String → String
  arg : String → String → String

/-- `QString::toInt()`: the value, or `0` when the conversion fails. -/
def Qt.toInt {F : Type} (qt : Qt F) (s : String) : Int :=
  (qt.intOf s).getD 0

/-- `QString::toFloat()`: the value, or `0.0` when the conversion fails. -/
def Qt.toFloat {F : Type} (qt : Qt F) (s : String) : F :=
  (qt.floatOf s).getD qt.zero

/-- `QPointF`. -/
structure QPointF (F : Type) where
  x : F
  y : F
  deriving DecidableEq, Repr

/-- A call received by the main window, with its arguments. -/
inductive BuilderCall (F : Type) where
  | createImagePaint (id : Int) (uri : String) (x y : F)
  | createTriangleTextureMapping (id paintId : Int) (src dst : List (QPointF F))
  deriving DecidableEq, Repr

/-- The two operations of `MainWindow` that the reader calls.  The window is
stateful: each operation sees the calls the window has received before and
returns a uid. -/
structure MainWindow (F : Type) where
  createImagePaint : List (BuilderCall F) → Int → String → F → F → Int
  createTriangleTextureMapping :
    List (BuilderCall F) → Int → Int → List (QPointF F) → List (QPointF F) → Int

/-! ## Reader state -/

/-- State of a `ProjectReader`: the error slot and position of its
`QXmlStreamReader` member `_xml`, the calls its `_window` has received (oldest
first) and the messages passed to `raiseError` (oldest first). -/
structure ProjectReader (F : Type) where
  hasError : Bool
  xmlErrorString : String
  lineNumber : Int
  columnNumber : Int
  calls : List (BuilderCall F)
  raised : List String
  deriving Repr

/-- A reader as the constructor leaves it, in front of a window that has
received `calls`. -/
def ProjectReader.fresh {F : Type} (line column : Int) (calls : List (BuilderCall F)) :
    ProjectReader F :=
  { hasError := false, xmlErrorString := "", lineNumber := line, columnNumber := column,
    calls := calls, raised := [] }

/-- `_xml.raiseError(message)`: sets the error and overwrites the message. -/
def raiseError {F : Type} (r : ProjectReader F) (message : String) : ProjectReader F :=
  { r with hasError := true, xmlErrorString := message, raised := r.raised ++ [message] }

/-- `_window->createImagePaint(id, uri, x, y)`: the uid returned and the state after the call. -/
def windowCreateImagePaint {F : Type} (w : MainWindow F) (r : ProjectReader F)
    (id : Int) (uri : String) (x y : F) : Int × ProjectReader F :=
  (w.createImagePaint r.calls id uri x y,
   { r with calls := r.calls ++ [BuilderCall.createImagePaint id uri x y] })

/-- `_window->createTriangleTextureMapping(id, paintId, src, dst)`. -/
def windowCreateTriangleTextureMapping {F : Type} (w : MainWindow F) (r : ProjectReader F)
    (id paintId : Int) (src dst : List (QPointF F)) : Int × ProjectReader F :=
  (w.createTriangleTextureMapping r.calls id paintId src dst,
   { r with calls := r.calls ++ [BuilderCall.createTriangleTextureMapping id paintId src dst] })

/-- `QList::clear`. -/
def clear {α : Type} (_l : List α) : List α := []

/-! ## The reader (ProjectReader.cpp, lines 29-164) -/

/-- `ProjectReader::_parseVertex`. -/
def _parseVertex {F : Type} (qt : Qt F) (vertex : QDomElement) : QPointF F :=
  { x := qt.toFloat (vertex.attribute "x" "0"),
    y := qt.toFloat (vertex.attribute "y" "0") }

/-- `ProjectReader::_parseTriangle`: the state after the call and the content of `points`. -/
def _parseTriangle {F : Type} (qt : Qt F) (triangle : QDomElement) (points : List (QPointF F))
    (r : ProjectReader F) : ProjectReader F × List (QPointF F) :=
  -- Check that the element is really a triangle.
  let type := triangle.attribute "shape" ""
  let r1 := if type ≠ "triangle" then
      raiseError r (qt.arg (qt.tr "Wrong shape type for destination: %1.") type)
    else r
  -- Reset list of points.
  let points0 := clear points
  -- Add vertices.
  let vertices := triangle.childNodes
  let r2 := if vertices.length ≠ 3 then
      raiseError r1 (qt.tr "Shape has wrong number of vertices.")
    else r1
  (r2, (List.range 3).foldl
    (fun pts i => pts ++ [_parseVertex qt (nodeAt vertices i).toElement]) points0)

/-- `ProjectReader::parsePaint`. -/
def parsePaint {F : Type} (qt : Qt F) (w : MainWindow F) (paint : QDomElement)
    (r : ProjectReader F) : ProjectReader F :=
  let paintAttrId := paint.attribute "id" (qt.number qt.NULL_UID)
  let _paintAttrName := paint.attribute "name" ""
  let paintAttrType := paint.attribute "type" ""
  if paintAttrType = "image" then
    let uri := (paint.firstChildElement "uri").text
    let x := (paint.firstChildElement "x").text
    let y := (paint.firstChildElement "y").text
    let (id, r1) := windowCreateImagePaint w r (qt.toInt paintAttrId) uri (qt.toFloat x) (qt.toFloat y)
    if id = qt.NULL_UID then
      raiseError r1 (qt.arg (qt.tr "Cannot create image with uri %1.") uri)
    else r1
  else
    raiseError r (qt.arg (qt.tr "Unsupported paint type: %1.") paintAttrType)

/-- `ProjectReader::parseMapping`. -/
def parseMapping {F : Type} (qt : Qt F) (w : MainWindow F) (mapping : QDomElement)
    (r : ProjectReader F) : ProjectReader F :=
  let mappingAttrId := mapping.attribute "id" (qt.number qt.NULL_UID)
  let mappingAttrPaintId := mapping.attribute "paint_id" (qt.number qt.NULL_UID)
  let mappingAttrType := mapping.attribute "type" ""
  -- Get destination shape.
  let dst := mapping.firstChildElement "destination"
  let dstPoints0 : List (QPointF F) := []
  if mappingAttrType = "triangle_texture" then
    -- Parse destination triangle.
    let (r1, dstPoints) := _parseTriangle qt dst dstPoints0 r
    -- Get / parse source shape.
    let src := mapping.firstChildElement "source"
    let srcPoints0 : List (QPointF F) := []
    let (r2, srcPoints) := _parseTriangle qt src srcPoints0 r1
    let (id, r3) := windowCreateTriangleTextureMapping w r2
      (qt.toInt mappingAttrId) (qt.toInt mappingAttrPaintId) srcPoints dstPoints
    if id = qt.NULL_UID then
      raiseError r3 (qt.tr "Cannot create triangle texture mapping")
    else r3
  else if mappingAttrType = "mesh_texture" then
    r
  else
    raiseError r (qt.arg (qt.tr "Unsupported mapping type: %1.") mappingAttrType)

/-- The first loop of `parseProject` (lines 69-74): from `paints.firstChild()`
along `nextSibling()` until the null node, each node goes through `toElement`
to `parsePaint`. -/
def paintLoop {F : Type} (qt : Qt F) (w : MainWindow F) :
    List DomTree → ProjectReader F → ProjectReader F
  | [], r => r
  | paint :: siblings, r =>
      paintLoop qt w siblings (parsePaint qt w paint.toElement r)

/-- The second loop of `parseProject` (lines 77-82), over the children of `mappings`. -/
def mappingLoop {F : Type} (qt : Qt F) (w : MainWindow F) :
    List DomTree → ProjectReader F → ProjectReader F
  | [], r => r
  | mapping :: siblings, r =>
      mappingLoop qt w siblings (parseMapping qt w mapping.toElement r)

/-- `ProjectReader::parseProject`. -/
def parseProject {F : Type} (qt : Qt F) (w : MainWindow F) (project : QDomElement)
    (r : ProjectReader F) : ProjectReader F :=
  let paints := project.firstChildElement "paints"
  let mappings := project.firstChildElement "mappings"
  -- Parse paints.
  let r1 := paintLoop qt w paints.childNodes r
  -- Parse mappings.
  mappingLoop qt w mappings.childNodes r1

/-- `ProjectReader::readFile`.  `device` is what `doc.setContent(device, ...)`
makes of the device: `none` when it reports a parse error. -/
def readFile {F : Type} (qt : Qt F) (w : MainWindow F) (device : Option QDomDocument)
    (r : ProjectReader F) : Bool × ProjectReader F :=
  match device with
  | none => (false, r)
  | some doc =>
    let root := doc.documentElement
    if root.tagName ≠ "project" ∨ root.attribute "version" "" ≠ "1.0" then
      (false, raiseError r (qt.tr "The file is not a libremapping version 1.0 file."))
    else
      let r1 := parseProject qt w root r
      (!r1.hasError, r1)

/-- `ProjectReader::errorString`. -/
def errorString {F : Type} (qt : Qt F) (r : ProjectReader F) : String :=
  qt.arg (qt.arg (qt.arg (qt.tr "%1\nLine %2, column %3") r.xmlErrorString)
    (qt.number r.lineNumber)) (qt.number r.columnNumber)

/-! ## A concrete Qt for evaluation

Decimal conversions in the C locale, for running the reader on sample
documents: integers are an optional sign and digits within the range of `int`,
floating-point values are finite decimals written with an optional sign, digits
and an optional fraction; surrounding white space is ignored; there is no
translation; `arg` replaces the lowest-numbered place marker. -/

/-- Value of a decimal digit. -/
def digitValue (c : Char) : Option Nat :=
  if c.isDigit then some (c.toNat - 48) else none

/-- Value of a non-empty run of decimal digits. -/
def digitsValue : List Char → Option Nat
  | [] => none
  | cs => cs.foldl (fun acc c => do let a ← acc; let d ← digitValue c; pure (10 * a + d)) (some 0)

/-- Characters without leading and trailing white space. -/
def trimmed (cs : List Char) : List Char :=
  ((cs.dropWhile Char.isWhitespace).reverse.dropWhile Char.isWhitespace).reverse

/-- Sign and magnitude part of a number text. -/
def splitSign : List Char → Bool × List Char
  | '-' :: cs => (true, cs)
  | '+' :: cs => (false, cs)
  | cs => (false, cs)

/-- Decimal integer conversion with the range check of `int`. -/
def decimalInt (s : String) : Option Int :=
  let (neg, cs) := splitSign (trimmed s.data)
  match digitsValue cs with
  | none => none
  | some n =>
    let v : Int := if neg then -(n : Int) else n
    if -2147483648 ≤ v ∧ v ≤ 2147483647 then some v else none

/-- A finite decimal `mantissa / 10 ^ scale`. -/
structure Decimal where
  mantissa : Int
  scale : Nat
  deriving DecidableEq, Repr

/-- Removes trailing zeros of the fraction, so that equal values are equal decimals. -/
def Decimal.normalize : Int → Nat → Decimal
  | m, 0 => ⟨m, 0⟩
  | m, k + 1 => if m % 10 = 0 then Decimal.normalize (m / 10) k else ⟨m, k + 1⟩

/-- Decimal conversion: `digits`, `digits.`, `.digits` or `digits.digits`, with an optional sign. -/
def decimalValue (s : String) : Option Decimal :=
  let (neg, cs) := splitSign (trimmed s.data)
  let ip := cs.takeWhile (fun c => c ≠ '.')
  let fp := (cs.dropWhile (fun c => c ≠ '.')).drop 1
  if ip = [] ∧ fp = [] then none else
  match (if ip = [] then some 0 else digitsValue ip),
        (if fp = [] then some 0 else digitsValue fp) with
  | some i, some f =>
    let m : Int := (i * 10 ^ fp.length + f : Nat)
    some (Decimal.normalize (if neg then -m else m) fp.length)
  | _, _ => none

/-- The place marker at the head of `cs`, if any: its number and its length. -/
def markerAt : List Char → Option (Nat × Nat)
  | '%' :: 'L' :: d1 :: d2 :: _ =>
    match digitValue d1, digitValue d2 with
    | some a, some b => some (10 * a + b, 4)
    | some a, none => some (a, 3)
    | none, _ => none
  | ['%', 'L', d1] => (digitValue d1).map (fun a => (a, 3))
  | '%' :: d1 :: d2 :: _ =>
    match digitValue d1, digitValue d2 with
    | some a, some b => some (10 * a + b, 3)
    | some a, none => some (a, 2)
    | none, _ => none
  | ['%', d1] => (digitValue d1).map (fun a => (a, 2))
  | _ => none

/-- The lowest place-marker number of a template. -/
def lowestMarker : Nat → List Char → Option Nat
  | 0, _ => none
  | _, [] => none
  | fuel + 1, c :: cs =>
    match markerAt (c :: cs) with
    | some (n, len) =>
      match lowestMarker fuel ((c :: cs).drop len) with
      | some m => some (min n m)
      | none => some n
    | none => lowestMarker fuel cs

/-- Replaces every marker numbered `k` by `a`. -/
def replaceMarker (k : Nat) (a : List Char) : Nat → List Char → List Char
  | 0, cs => cs
  | _, [] => []
  | fuel + 1, c :: cs =>
    match markerAt (c :: cs) with
    | some (n, len) =>
      if n = k then a ++ replaceMarker k a fuel ((c :: cs).drop len)
      else (c :: cs).take len ++ replaceMarker k a fuel ((c :: cs).drop len)
    | none => c :: replaceMarker k a fuel cs

/-- `QString::arg(a)` on a template. -/
def argC (t a : String) : String :=
  match lowestMarker t.length t.data with
  | none => t
  | some k => String.mk (replaceMarker k a.data t.length t.data)

/-- The concrete Qt, with `NULL_UID` given. -/
def qtC (nullUid : Int) : Qt Decimal :=
  { NULL_UID := nullUid, zero := ⟨0, 0⟩, intOf := decimalInt, floatOf := decimalValue,
    number := fun n => toString n, tr := fun s => s, arg := argC }

/-- A window that gives every entity the uid it asks for, or `1` when it asks for `avoid`. -/
def echoWindow (avoid : Int) : MainWindow Decimal :=
  { createImagePaint := fun _ id _ _ _ => if id = avoid then 1 else id,
    createTriangleTextureMapping := fun _ id _ _ _ => if id = avoid then 1 else id }

/-- A window that refuses every creation by returning `refusal`. -/
def refusingWindow (refusal : Int) : MainWindow Decimal :=
  { createImagePaint := fun _ _ _ _ _ => refusal,
    createTriangleTextureMapping := fun _ _ _ _ _ => refusal }

/-! ## What a document asks of the window

The calls of a run and their arguments, read off the document. -/

/-- The points `_parseTriangle` leaves in its output list. -/
def trianglePoints {F : Type} (qt : Qt F) (triangle : QDomElement) : List (QPointF F) :=
  [_parseVertex qt (nodeAt triangle.childNodes 0).toElement,
   _parseVertex qt (nodeAt triangle.childNodes 1).toElement,
   _parseVertex qt (nodeAt triangle.childNodes 2).toElement]

/-- The `createImagePaint` call of an image paint. -/
def imagePaintCall {F : Type} (qt : Qt F) (paint : QDomElement) : BuilderCall F :=
  .createImagePaint (qt.toInt (paint.attribute "id" (qt.number qt.NULL_UID)))
    (paint.firstChildElement "uri").text
    (qt.toFloat (paint.firstChildElement "x").text)
    (qt.toFloat (paint.firstChildElement "y").text)

/-- The `createTriangleTextureMapping` call of a triangle-texture mapping. -/
def triangleMappingCall {F : Type} (qt : Qt F) (mapping : QDomElement) : BuilderCall F :=
  .createTriangleTextureMapping (qt.toInt (mapping.attribute "id" (qt.number qt.NULL_UID)))
    (qt.toInt (mapping.attribute "paint_id" (qt.number qt.NULL_UID)))
    (trianglePoints qt (mapping.firstChildElement "source"))
    (trianglePoints qt (mapping.firstChildElement "destination"))

/-- Calls issued for one child of `paints`. -/
def paintCalls {F : Type} (qt : Qt F) (paint : QDomElement) : List (BuilderCall F) :=
  if paint.attribute "type" "" = "image" then [imagePaintCall qt paint] else []

/-- Calls issued for one child of `mappings`. -/
def mappingCalls {F : Type} (qt : Qt F) (mapping : QDomElement) : List (BuilderCall F) :=
  if mapping.attribute "type" "" = "triangle_texture" then [triangleMappingCall qt mapping] else []

/-- The child nodes of the first child element of `project` named `name`. -/
def sectionNodes (project : QDomElement) (name : String) : List DomTree :=
  (project.firstChildElement name).childNodes

/-- Calls issued for a project element: those of the paints, then those of the mappings. -/
def projectCalls {F : Type} (qt : Qt F) (project : QDomElement) : List (BuilderCall F) :=
  (sectionNodes project "paints").flatMap (fun t => paintCalls qt t.toElement) ++
  (sectionNodes project "mappings").flatMap (fun t => mappingCalls qt t.toElement)

/-- Messages `_parseTriangle` raises on an element, in order. -/
def triangleMsgs {F : Type} (qt : Qt F) (triangle : QDomElement) : List String :=
  (if triangle.attribute "shape" "" ≠ "triangle" then
      [qt.arg (qt.tr "Wrong shape type for destination: %1.") (triangle.attribute "shape" "")]
    else []) ++
  (if triangle.childNodes.length ≠ 3 then [qt.tr "Shape has wrong number of vertices."] else [])

/-- Messages `parsePaint` raises on an element when the window has received `hist`. -/
def paintMsgs {F : Type} (qt : Qt F) (w : MainWindow F) (hist : List (BuilderCall F))
    (paint : QDomElement) : List String :=
  if paint.attribute "type" "" = "image" then
    if w.createImagePaint hist (qt.toInt (paint.attribute "id" (qt.number qt.NULL_UID)))
        (paint.firstChildElement "uri").text
        (qt.toFloat (paint.firstChildElement "x").text)
        (qt.toFloat (paint.firstChildElement "y").text) = qt.NULL_UID then
      [qt.arg (qt.tr "Cannot create image with uri %1.") (paint.firstChildElement "uri").text]
    else []
  else [qt.arg (qt.tr "Unsupported paint type: %1.") (paint.attribute "type" "")]

/-- Messages `parseMapping` raises on an element when the window has received `hist`. -/
def mappingMsgs {F : Type} (qt : Qt F) (w : MainWindow F) (hist : List (BuilderCall F))
    (mapping : QDomElement) : List String :=
  if mapping.attribute "type" "" = "triangle_texture" then
    triangleMsgs qt (mapping.firstChildElement "destination") ++
    triangleMsgs qt (mapping.firstChildElement "source") ++
    (if w.createTriangleTextureMapping hist
        (qt.toInt (mapping.attribute "id" (qt.number qt.NULL_UID)))
        (qt.toInt (mapping.attribute "paint_id" (qt.number qt.NULL_UID)))
        (trianglePoints qt (mapping.firstChildElement "source"))
        (trianglePoints qt (mapping.firstChildElement "destination")) = qt.NULL_UID then
      [qt.tr "Cannot create triangle texture mapping"]
    else [])
  else if mapping.attribute "type" "" = "mesh_texture" then []
  else [qt.arg (qt.tr "Unsupported mapping type: %1.") (mapping.attribute "type" "")]

/-- Messages raised over the children of `paints`. -/
def paintLoopMsgs {F : Type} (qt : Qt F) (w : MainWindow F) :
    List (BuilderCall F) → List DomTree → List String
  | _, [] => []
  | hist, p :: ps =>
    paintMsgs qt w hist p.toElement ++ paintLoopMsgs qt w (hist ++ paintCalls qt p.toElement) ps

/-- Messages raised over the children of `mappings`. -/
def mappingLoopMsgs {F : Type} (qt : Qt F) (w : MainWindow F) :
    List (BuilderCall F) → List DomTree → List String
  | _, [] => []
  | hist, m :: ms =>
    mappingMsgs qt w hist m.toElement ++
      mappingLoopMsgs qt w (hist ++ mappingCalls qt m.toElement) ms

/-- Messages `parseProject` raises when the window has received `hist`. -/
def projectMsgs {F : Type} (qt : Qt F) (w : MainWindow F) (hist : List (BuilderCall F))
    (project : QDomElement) : List String :=
  paintLoopMsgs qt w hist (sectionNodes project "paints") ++
  mappingLoopMsgs qt w
    (hist ++ (sectionNodes project "paints").flatMap (fun t => paintCalls qt t.toElement))
    (sectionNodes project "mappings")

/-- A shape element that `_parseTriangle` accepts: `shape="triangle"` and three child nodes. -/
def isTriangle (shape : QDomElement) : Prop :=
  shape.attribute "shape" "" = "triangle" ∧ shape.childNodes.length = 3

instance (shape : QDomElement) : Decidable (isTriangle shape) :=
  inferInstanceAs (Decidable (_ ∧ _))

/-- A paint element of type `image` (only an element has a `type` attribute). -/
def isImagePaint (paint : QDomElement) : Prop :=
  paint.attribute "type" "" = "image"

instance (paint : QDomElement) : Decidable (isImagePaint paint) :=
  inferInstanceAs (Decidable (_ = _))

/-- A mapping element of type `triangle_texture` whose `destination` and `source`
children are triangles. -/
def isTriangleTextureMapping (mapping : QDomElement) : Prop :=
  mapping.attribute "type" "" = "triangle_texture" ∧
  isTriangle (mapping.firstChildElement "destination") ∧
  isTriangle (mapping.firstChildElement "source")

instance (mapping : QDomElement) : Decidable (isTriangleTextureMapping mapping) :=
  inferInstanceAs (Decidable (_ ∧ _))

/-- The window never answers `NULL_UID`. -/
def neverFails {F : Type} (qt : Qt F) (w : MainWindow F) : Prop :=
  (∀ hist id uri x y, w.createImagePaint hist id uri x y ≠ qt.NULL_UID) ∧
  (∀ hist id paintId src dst, w.createTriangleTextureMapping hist id paintId src dst ≠ qt.NULL_UID)

/-- The call is a `createImagePaint`. -/
def BuilderCall.isImagePaint {F : Type} : BuilderCall F → Bool
  | .createImagePaint _ _ _ _ => true
  | .createTriangleTextureMapping _ _ _ _ => false

/-- The call is a `createTriangleTextureMapping`. -/
def BuilderCall.isTriangleTextureMapping {F : Type} : BuilderCall F → Bool
  | .createImagePaint _ _ _ _ => false
  | .createTriangleTextureMapping _ _ _ _ => true

/-- The calls `readFile` issues for what `setContent` made of the device. -/
def deviceCalls {F : Type} (qt : Qt F) : Option QDomDocument → List (BuilderCall F)
  | none => []
  | some doc =>
    if doc.documentElement.tagName = "project" ∧
        doc.documentElement.attribute "version" "" = "1.0" then
      projectCalls qt doc.documentElement
    else []

/-- The root check of `readFile`. -/
def passesRootCheck (doc : QDomDocument) : Prop :=
  doc.documentElement.tagName = "project" ∧ doc.documentElement.attribute "version" "" = "1.0"

instance (doc : QDomDocument) : Decidable (passesRootCheck doc) :=
  inferInstanceAs (Decidable (_ ∧ _))

/-- The reader `r'` is `r` after raising `msgs` and sending `cs` to the window, in that order. -/
structure Advances {F : Type} (r r' : ProjectReader F) (msgs : List String)
    (cs : List (BuilderCall F)) : Prop where
  raised : r'.raised = r.raised ++ msgs
  calls : r'.calls = r.calls ++ cs
  hasError : r'.hasError = (r.hasError || !msgs.isEmpty)
  slot : r'.xmlErrorString = msgs.getLast?.getD r.xmlErrorString
  line : r'.lineNumber = r.lineNumber
  column : r'.columnNumber = r.columnNumber

/-! ## Inserting a node into a section -/

/-- The list `l` with `n` inserted before position `k` (at the end when `k` is past it). -/
def insertAt (k : Nat) (n : DomTree) (l : List DomTree) : List DomTree :=
  l.take k ++ n :: l.drop k

/-- The siblings `l` with `n` inserted at position `k` among the children of the
first element named `name`. -/
def insertInSection (name : String) (k : Nat) (n : DomTree) : List DomTree → List DomTree
  | [] => []
  | .element t a c :: rest =>
    if t = name then .element t a (insertAt k n c) :: rest
    else .element t a c :: insertInSection name k n rest
  | x :: rest => x :: insertInSection name k n rest

/-- The document with `n` inserted at position `k` among the children of the first
child of the root named `name`. -/
def insertInDocument (name : String) (k : Nat) (n : DomTree) (doc : QDomDocument) :
    QDomDocument :=
  match doc.documentElement with
  | .null => doc
  | .elem t a c => { documentElement := .elem t a (insertInSection name k n c) }

/-! ## Sample documents -/

/-- A `vertex` element. -/
def sampleVertex (x y : String) : DomTree :=
  .element "vertex" [("x", x), ("y", y)] []

/-- A triangle shape element named `tag`. -/
def sampleTriangle (tag : String) : DomTree :=
  .element tag [("shape", "triangle")]
    [sampleVertex "0" "0", sampleVertex "1.5" "0", sampleVertex "0" "-2"]

/-- An image paint with the given id and uri at (1.5, 2). -/
def sampleImagePaint (id uri : String) : DomTree :=
  .element "paint" [("id", id), ("name", "p"), ("type", "image")]
    [.element "uri" [] [.text uri], .element "x" [] [.text "1.5"], .element "y" [] [.text "2"]]

/-- A triangle-texture mapping with well-formed shapes. -/
def sampleTriangleMapping (id paintId : String) : DomTree :=
  .element "mapping" [("id", id), ("paint_id", paintId), ("type", "triangle_texture")]
    [sampleTriangle "destination", sampleTriangle "source"]

/-- A project document with the given version and sections. -/
def sampleProject (version : String) (paints mappings : List DomTree) : QDomDocument :=
  { documentElement := .elem "project" [("version", version)]
      [.element "paints" [] paints, .element "mappings" [] mappings] }

/-- Two image paints and one triangle-texture mapping. -/
def validDoc : QDomDocument :=
  sampleProject "1.0" [sampleImagePaint "1" "a.png", sampleImagePaint "2" "b.png"]
    [sampleTriangleMapping "3" "1"]

/-- The same content under version 2.0. -/
def wrongVersionDoc : QDomDocument :=
  sampleProject "2.0" [sampleImagePaint "1" "a.png", sampleImagePaint "2" "b.png"]
    [sampleTriangleMapping "3" "1"]

/-- Two paints of unsupported types followed by an image paint. -/
def continueDoc : QDomDocument :=
  sampleProject "1.0"
    [.element "paint" [("id", "1"), ("type", "video")] [],
     .element "paint" [("id", "2")] [],
     sampleImagePaint "3" "c.png"] []

/-- A triangle-texture mapping whose `destination` says `shape="quad"`. -/
def wrongShapeMapping : QDomElement :=
  .elem "mapping" [("id", "3"), ("paint_id", "1"), ("type", "triangle_texture")]
    [.element "destination" [("shape", "quad")]
      [sampleVertex "0" "0", sampleVertex "1" "0", sampleVertex "0" "1"],
     sampleTriangle "source"]

/-- An image paint whose `id` is not a number. -/
def badIdPaint : QDomElement :=
  .elem "paint" [("id", "abc"), ("type", "image")] [.element "uri" [] [.text "a.png"]]

/-- An image paint without `id` attribute and without `x` and `y` children. -/
def bareImagePaint : QDomElement :=
  .elem "paint" [("type", "image")] [.element "uri" [] [.text "a.png"]]

/-- A mesh-texture mapping with content. -/
def meshMapping : QDomElement :=
  .elem "mapping" [("id", "4"), ("paint_id", "1"), ("type", "mesh_texture")]
    [sampleTriangle "destination", .text "ignored"]

/-- A paint of type `video`. -/
def videoPaint : QDomElement :=
  .elem "paint" [("id", "1"), ("type", "video")] [.element "uri" [] [.text "a.mov"]]

/-- A triangle shape with the given vertices as children. -/
def shapeWith (vertices : List DomTree) : QDomElement :=
  .elem "destination" [("shape", "triangle")] vertices

/-- A shape whose `shape` attribute is `quad`, with three vertices. -/
def quadShape : QDomElement :=
  .elem "destination" [("shape", "quad")]
    [sampleVertex "0" "0", sampleVertex "1.5" "0", sampleVertex "0" "-2"]

/-- A project root of version 1.0 without children. -/
def emptyProjectDoc : QDomDocument :=
  { documentElement := .elem "project" [("version", "1.0")] [] }

/-- A project with two `paints` and two `mappings` sections; the second ones hold
unsupported entries. -/
def twoSectionsDoc : QDomDocument :=
  { documentElement := .elem "project" [("version", "1.0")]
      [.element "paints" [] [sampleImagePaint "1" "a.png"],
       .element "paints" [] [.element "paint" [("type", "video")] []],
       .element "mappings" [] [],
       .element "mappings" [] [.element "mapping" [("type", "unknown")] []]] }

/-- A project whose `mappings` section comes before its `paints` section. -/
def mappingsFirstDoc : QDomDocument :=
  { documentElement := .elem "project" [("version", "1.0")]
      [.element "mappings" [] [sampleTriangleMapping "3" "1"],
       .element "paints" [] [sampleImagePaint "1" "a.png", sampleImagePaint "2" "b.png"]] }

/-- A reader just constructed, in front of a window that has received nothing. -/
def reader0 : ProjectReader Decimal := ProjectReader.fresh 1 0 []

/-! ## Basic facts -/

section Lemmas

variable {F : Type}

theorem Advances.refl (r : ProjectReader F) : Advances r r [] [] := by
  constructor <;> simp

theorem Advances.raise (r : ProjectReader F) (m : String) :
    Advances r (raiseError r m) [m] [] := by
  constructor <;> simp [raiseError]

theorem Advances.trans {a b c : ProjectReader F} {m1 m2 : List String}
    {c1 c2 : List (BuilderCall F)} (h1 : Advances a b m1 c1) (h2 : Advances b c m2 c2) :
    Advances a c (m1 ++ m2) (c1 ++ c2) := by
  constructor
  · rw [h2.raised, h1.raised, List.append_assoc]
  · rw [h2.calls, h1.calls, List.append_assoc]
  · rw [h2.hasError, h1.hasError]
    cases m1 <;> cases m2 <;> simp
  · rw [h2.slot, h1.slot]
    cases m2 with
    | nil => simp
    | cons x xs =>
      rw [List.getLast?_append, List.getLast?_eq_getLast (x :: xs) (List.cons_ne_nil x xs)]
      simp
  · rw [h2.line, h1.line]
  · rw [h2.column, h1.column]

theorem Advances.imagePaint (w : MainWindow F) (r : ProjectReader F) (id : Int) (uri : String)
    (x y : F) :
    Advances r (windowCreateImagePaint w r id uri x y).2 []
      [BuilderCall.createImagePaint id uri x y] := by
  constructor <;> simp [windowCreateImagePaint]

theorem Advances.triangleMapping (w : MainWindow F) (r : ProjectReader F) (id paintId : Int)
    (src dst : List (QPointF F)) :
    Advances r (windowCreateTriangleTextureMapping w r id paintId src dst).2 []
      [BuilderCall.createTriangleTextureMapping id paintId src dst] := by
  constructor <;> simp [windowCreateTriangleTextureMapping]

theorem parseTriangle_points (qt : Qt F) (triangle : QDomElement) (points : List (QPointF F))
    (r : ProjectReader F) :
    (_parseTriangle qt triangle points r).2 = trianglePoints qt triangle := by
  simp [_parseTriangle, trianglePoints, clear, List.range, List.range.loop]

theorem parseTriangle_advances (qt : Qt F) (triangle : QDomElement) (points : List (QPointF F))
    (r : ProjectReader F) :
    Advances r (_parseTriangle qt triangle points r).1 (triangleMsgs qt triangle) [] := by
  unfold _parseTriangle triangleMsgs
  by_cases h1 : triangle.attribute "shape" "" = "triangle" <;>
    by_cases h2 : triangle.childNodes.length = 3
  · simpa [h1, h2] using Advances.refl r
  · simpa [h1, h2] using Advances.raise r _
  · simpa [h1, h2] using Advances.raise r _
  · simpa [h1, h2] using (Advances.raise r _).trans (Advances.raise _ _)

theorem parsePaint_advances (qt : Qt F) (w : MainWindow F) (paint : QDomElement)
    (r : ProjectReader F) :
    Advances r (parsePaint qt w paint r) (paintMsgs qt w r.calls paint) (paintCalls qt paint) := by
  unfold parsePaint paintMsgs paintCalls
  by_cases h1 : paint.attribute "type" "" = "image"
  · simp only [h1, if_true]
    have hc := Advances.imagePaint w r (qt.toInt (paint.attribute "id" (qt.number qt.NULL_UID)))
      (paint.firstChildElement "uri").text (qt.toFloat (paint.firstChildElement "x").text)
      (qt.toFloat (paint.firstChildElement "y").text)
    by_cases h2 : w.createImagePaint r.calls
        (qt.toInt (paint.attribute "id" (qt.number qt.NULL_UID)))
        (paint.firstChildElement "uri").text (qt.toFloat (paint.firstChildElement "x").text)
        (qt.toFloat (paint.firstChildElement "y").text) = qt.NULL_UID
    · have := hc.trans (Advances.raise _
        (qt.arg (qt.tr "Cannot create image with uri %1.") (paint.firstChildElement "uri").text))
      simpa [h2, windowCreateImagePaint, imagePaintCall] using this
    · simpa [h2, windowCreateImagePaint, imagePaintCall] using hc
  · simpa [h1] using Advances.raise r _

theorem parseMapping_advances (qt : Qt F) (w : MainWindow F) (mapping : QDomElement)
    (r : ProjectReader F) :
    Advances r (parseMapping qt w mapping r) (mappingMsgs qt w r.calls mapping)
      (mappingCalls qt mapping) := by
  unfold parseMapping mappingMsgs mappingCalls
  by_cases h1 : mapping.attribute "type" "" = "triangle_texture"
  · simp only [h1, if_true]
    have hd := parseTriangle_advances qt (mapping.firstChildElement "destination") [] r
    have hs := parseTriangle_advances qt (mapping.firstChildElement "source") []
      (_parseTriangle qt (mapping.firstChildElement "destination") [] r).1
    have hds := hd.trans hs
    have hcalls : (_parseTriangle qt (mapping.firstChildElement "source") []
        (_parseTriangle qt (mapping.firstChildElement "destination") [] r).1).1.calls = r.calls := by
      simpa using hds.calls
    have hc := Advances.triangleMapping w
      (_parseTriangle qt (mapping.firstChildElement "source") []
        (_parseTriangle qt (mapping.firstChildElement "destination") [] r).1).1
      (qt.toInt (mapping.attribute "id" (qt.number qt.NULL_UID)))
      (qt.toInt (mapping.attribute "paint_id" (qt.number qt.NULL_UID)))
      (trianglePoints qt (mapping.firstChildElement "source"))
      (trianglePoints qt (mapping.firstChildElement "destination"))
    have hall := hds.trans hc
    by_cases h2 : w.createTriangleTextureMapping r.calls
        (qt.toInt (mapping.attribute "id" (qt.number qt.NULL_UID)))
        (qt.toInt (mapping.attribute "paint_id" (qt.number qt.NULL_UID)))
        (trianglePoints qt (mapping.firstChildElement "source"))
        (trianglePoints qt (mapping.firstChildElement "destination")) = qt.NULL_UID
    · have := hall.trans (Advances.raise _ (qt.tr "Cannot create triangle texture mapping"))
      simpa [h2, windowCreateTriangleTextureMapping, triangleMappingCall, parseTriangle_points,
        hcalls] using this
    · simpa [h2, windowCreateTriangleTextureMapping, triangleMappingCall, parseTriangle_points,
        hcalls] using hall
  · by_cases h2 : mapping.attribute "type" "" = "mesh_texture"
    · simpa [h1, h2] using Advances.refl r
    · simpa [h1, h2] using Advances.raise r _

theorem paintLoop_advances (qt : Qt F) (w : MainWindow F) (ps : List DomTree)
    (r : ProjectReader F) :
    Advances r (paintLoop qt w ps r) (paintLoopMsgs qt w r.calls ps)
      (ps.flatMap (fun t => paintCalls qt t.toElement)) := by
  induction ps generalizing r with
  | nil => simpa [paintLoop, paintLoopMsgs] using Advances.refl r
  | cons p ps ih =>
    have h1 := parsePaint_advances qt w p.toElement r
    have h2 := ih (parsePaint qt w p.toElement r)
    rw [h1.calls] at h2
    simpa [paintLoop, paintLoopMsgs] using h1.trans h2

theorem mappingLoop_advances (qt : Qt F) (w : MainWindow F) (ms : List DomTree)
    (r : ProjectReader F) :
    Advances r (mappingLoop qt w ms r) (mappingLoopMsgs qt w r.calls ms)
      (ms.flatMap (fun t => mappingCalls qt t.toElement)) := by
  induction ms generalizing r with
  | nil => simpa [mappingLoop, mappingLoopMsgs] using Advances.refl r
  | cons m ms ih =>
    have h1 := parseMapping_advances qt w m.toElement r
    have h2 := ih (parseMapping qt w m.toElement r)
    rw [h1.calls] at h2
    simpa [mappingLoop, mappingLoopMsgs] using h1.trans h2

theorem parseProject_advances (qt : Qt F) (w : MainWindow F) (project : QDomElement)
    (r : ProjectReader F) :
    Advances r (parseProject qt w project r) (projectMsgs qt w r.calls project)
      (projectCalls qt project) := by
  have h1 := paintLoop_advances qt w (sectionNodes project "paints") r
  have h2 := mappingLoop_advances qt w (sectionNodes project "mappings")
    (paintLoop qt w (sectionNodes project "paints") r)
  rw [h1.calls] at h2
  simpa [parseProject, projectMsgs, projectCalls, sectionNodes] using h1.trans h2

theorem readFile_pass (qt : Qt F) (w : MainWindow F) (doc : QDomDocument)
    (r : ProjectReader F) (h : passesRootCheck doc) :
    readFile qt w (some doc) r =
      (!(parseProject qt w doc.documentElement r).hasError,
        parseProject qt w doc.documentElement r) := by
  obtain ⟨h1, h2⟩ := h
  simp [readFile, h1, h2]

theorem readFile_reject (qt : Qt F) (w : MainWindow F) (doc : QDomDocument)
    (r : ProjectReader F) (h : ¬ passesRootCheck doc) :
    readFile qt w (some doc) r =
      (false, raiseError r (qt.tr "The file is not a libremapping version 1.0 file.")) := by
  have h' : doc.documentElement.tagName = "project" →
      ¬ doc.documentElement.attribute "version" "" = "1.0" := fun a b => h ⟨a, b⟩
  simp only [readFile]
  rw [if_pos]
  by_cases ht : doc.documentElement.tagName = "project"
  · exact Or.inr (h' ht)
  · exact Or.inl ht

theorem triangleMsgs_of_isTriangle (qt : Qt F) (shape : QDomElement) (h : isTriangle shape) :
    triangleMsgs qt shape = [] := by
  obtain ⟨h1, h2⟩ := h
  simp [triangleMsgs, h1, h2]

theorem paintLoopMsgs_valid (qt : Qt F) (w : MainWindow F) (hw : neverFails qt w)
    (ps : List DomTree) (hist : List (BuilderCall F))
    (h : ∀ p ∈ ps, isImagePaint p.toElement) :
    paintLoopMsgs qt w hist ps = [] ∧
    ps.flatMap (fun t => paintCalls qt t.toElement) =
      ps.map (fun t => imagePaintCall qt t.toElement) := by
  induction ps generalizing hist with
  | nil => simp [paintLoopMsgs]
  | cons p ps ih =>
    have hp : p.toElement.attribute "type" "" = "image" := h p (List.mem_cons_self _ _)
    have ih' := fun hist => ih hist (fun q hq => h q (List.mem_cons_of_mem _ hq))
    constructor
    · simp [paintLoopMsgs, paintMsgs, hp, hw.1, (ih' _).1]
    · rw [List.flatMap_cons, List.map_cons, (ih' hist).2]
      simp [paintCalls, hp]

theorem mappingLoopMsgs_valid (qt : Qt F) (w : MainWindow F) (hw : neverFails qt w)
    (ms : List DomTree) (hist : List (BuilderCall F))
    (h : ∀ m ∈ ms, isTriangleTextureMapping m.toElement) :
    mappingLoopMsgs qt w hist ms = [] ∧
    ms.flatMap (fun t => mappingCalls qt t.toElement) =
      ms.map (fun t => triangleMappingCall qt t.toElement) := by
  induction ms generalizing hist with
  | nil => simp [mappingLoopMsgs]
  | cons m ms ih =>
    obtain ⟨hm, hd, hs⟩ := h m (List.mem_cons_self _ _)
    have ih' := fun hist => ih hist (fun q hq => h q (List.mem_cons_of_mem _ hq))
    constructor
    · simp [mappingLoopMsgs, mappingMsgs, hm, hw.2, (ih' _).1,
        triangleMsgs_of_isTriangle qt _ hd, triangleMsgs_of_isTriangle qt _ hs]
    · rw [List.flatMap_cons, List.map_cons, (ih' hist).2]
      simp [mappingCalls, hm]

theorem paintLoopMsgs_invalid (qt : Qt F) (w : MainWindow F) (ps : List DomTree)
    (hist : List (BuilderCall F)) (h : ∃ p ∈ ps, ¬ isImagePaint p.toElement) :
    paintLoopMsgs qt w hist ps ≠ [] := by
  induction ps generalizing hist with
  | nil => simp at h
  | cons p ps ih =>
    by_cases hp : p.toElement.attribute "type" "" = "image"
    · have : ∃ q ∈ ps, ¬ isImagePaint q.toElement := by
        obtain ⟨q, hq, hq'⟩ := h
        rcases List.mem_cons.mp hq with rfl | hq
        · exact absurd hp hq'
        · exact ⟨q, hq, hq'⟩
      simp [paintLoopMsgs, ih _ this]
    · simp [paintLoopMsgs, paintMsgs, hp]

theorem mappingLoopMsgs_invalid (qt : Qt F) (w : MainWindow F) (ms : List DomTree)
    (hist : List (BuilderCall F))
    (h : ∃ m ∈ ms, m.toElement.attribute "type" "" ≠ "triangle_texture" ∧
      m.toElement.attribute "type" "" ≠ "mesh_texture") :
    mappingLoopMsgs qt w hist ms ≠ [] := by
  induction ms generalizing hist with
  | nil => simp at h
  | cons m ms ih =>
    by_cases hm : m.toElement.attribute "type" "" ≠ "triangle_texture" ∧
        m.toElement.attribute "type" "" ≠ "mesh_texture"
    · simp [mappingLoopMsgs, mappingMsgs, hm.1, hm.2]
    · have : ∃ q ∈ ms, q.toElement.attribute "type" "" ≠ "triangle_texture" ∧
          q.toElement.attribute "type" "" ≠ "mesh_texture" := by
        obtain ⟨q, hq, hq'⟩ := h
        rcases List.mem_cons.mp hq with rfl | hq
        · exact absurd hq' hm
        · exact ⟨q, hq, hq'⟩
      simp [mappingLoopMsgs, ih _ this]

theorem paintLoopMsgs_mem (qt : Qt F) (w : MainWindow F) (ps : List DomTree)
    (hist : List (BuilderCall F)) (p : DomTree) (hp : p ∈ ps) (h : ¬ isImagePaint p.toElement) :
    qt.arg (qt.tr "Unsupported paint type: %1.") (p.toElement.attribute "type" "") ∈
      paintLoopMsgs qt w hist ps := by
  induction ps generalizing hist with
  | nil => simp at hp
  | cons q ps ih =>
    rcases List.mem_cons.mp hp with rfl | hp
    · have h' : ¬ p.toElement.attribute "type" "" = "image" := h
      simp [paintLoopMsgs, paintMsgs, h']
    · simp only [paintLoopMsgs]
      exact List.mem_append_right _ (ih _ hp)

theorem mappingLoopMsgs_mem (qt : Qt F) (w : MainWindow F) (ms : List DomTree)
    (hist : List (BuilderCall F)) (m : DomTree) (hm : m ∈ ms)
    (h1 : m.toElement.attribute "type" "" ≠ "triangle_texture")
    (h2 : m.toElement.attribute "type" "" ≠ "mesh_texture") :
    qt.arg (qt.tr "Unsupported mapping type: %1.") (m.toElement.attribute "type" "") ∈
      mappingLoopMsgs qt w hist ms := by
  induction ms generalizing hist with
  | nil => simp at hm
  | cons q ms ih =>
    rcases List.mem_cons.mp hm with rfl | hm
    · simp [mappingLoopMsgs, mappingMsgs, h1, h2]
    · simp only [mappingLoopMsgs]
      exact List.mem_append_right _ (ih _ hm)

theorem mem_insertAt (k : Nat) (n : DomTree) (l : List DomTree) : n ∈ insertAt k n l := by
  simp [insertAt]

theorem flatMap_insertAt {β : Type} (f : DomTree → List β) (k : Nat) (n : DomTree)
    (l : List DomTree) (hn : f n = []) : (insertAt k n l).flatMap f = l.flatMap f := by
  simp only [insertAt, List.flatMap_append, List.flatMap_cons, hn, List.nil_append]
  rw [← List.flatMap_append, List.take_append_drop]

theorem firstElementNamed_insert_same (name : String) (k : Nat) (n : DomTree)
    (l : List DomTree) :
    firstElementNamed name (insertInSection name k n l) =
      match firstElementNamed name l with
      | .null => .null
      | .elem t a c => .elem t a (insertAt k n c) := by
  induction l with
  | nil => simp [insertInSection, firstElementNamed]
  | cons x rest ih =>
    cases x with
    | element t a c =>
      by_cases ht : t = name
      · simp [insertInSection, firstElementNamed, ht]
      · simp [insertInSection, firstElementNamed, ht, ih]
    | text d => simpa [insertInSection, firstElementNamed] using ih
    | cdata d => simpa [insertInSection, firstElementNamed] using ih
    | comment d => simpa [insertInSection, firstElementNamed] using ih

theorem firstElementNamed_insert_other (name other : String) (k : Nat) (n : DomTree)
    (l : List DomTree) (h : other ≠ name) :
    firstElementNamed other (insertInSection name k n l) = firstElementNamed other l := by
  induction l with
  | nil => simp [insertInSection]
  | cons x rest ih =>
    cases x with
    | element t a c =>
      by_cases ht : t = name
      · have : ¬ name = other := fun e => h e.symm
        simp [insertInSection, firstElementNamed, ht, this]
      · by_cases ho : t = other
        · simp [insertInSection, firstElementNamed, ho, h]
        · simp [insertInSection, firstElementNamed, ht, ho, ih]
    | text d => simpa [insertInSection, firstElementNamed] using ih
    | cdata d => simpa [insertInSection, firstElementNamed] using ih
    | comment d => simpa [insertInSection, firstElementNamed] using ih

theorem sectionNodes_insert_same (name : String) (k : Nat) (n : DomTree) (doc : QDomDocument)
    (h : doc.documentElement.firstChildElement name ≠ .null) :
    sectionNodes (insertInDocument name k n doc).documentElement name =
      insertAt k n (sectionNodes doc.documentElement name) := by
  unfold insertInDocument sectionNodes
  cases hd : doc.documentElement with
  | null => simp [hd, QDomElement.firstChildElement, QDomElement.childNodes, firstElementNamed] at h
  | elem t a c =>
    simp only [QDomElement.firstChildElement, QDomElement.childNodes, hd] at h ⊢
    rw [firstElementNamed_insert_same]
    cases hf : firstElementNamed name c with
    | null => exact absurd hf h
    | elem t2 a2 c2 => rfl

theorem sectionNodes_insert_absent (name : String) (k : Nat) (n : DomTree) (doc : QDomDocument)
    (h : doc.documentElement.firstChildElement name = .null) :
    sectionNodes (insertInDocument name k n doc).documentElement name =
      sectionNodes doc.documentElement name := by
  unfold insertInDocument sectionNodes
  cases hd : doc.documentElement with
  | null => simp [hd]
  | elem t a c =>
    simp only [QDomElement.firstChildElement, QDomElement.childNodes, hd] at h ⊢
    rw [firstElementNamed_insert_same, h]

theorem sectionNodes_insert_other (name other : String) (k : Nat) (n : DomTree)
    (doc : QDomDocument) (h : other ≠ name) :
    sectionNodes (insertInDocument name k n doc).documentElement other =
      sectionNodes doc.documentElement other := by
  unfold insertInDocument sectionNodes
  cases hd : doc.documentElement with
  | null => simp [hd]
  | elem t a c =>
    simp only [QDomElement.firstChildElement, QDomElement.childNodes]
    rw [firstElementNamed_insert_other name other k n c h]

theorem passesRootCheck_insert (name : String) (k : Nat) (n : DomTree) (doc : QDomDocument) :
    passesRootCheck (insertInDocument name k n doc) ↔ passesRootCheck doc := by
  unfold insertInDocument passesRootCheck
  cases hd : doc.documentElement with
  | null => simp [hd]
  | elem t a c => simp [QDomElement.tagName, QDomElement.attribute, QDomElement.attributes]

theorem paintCalls_null (qt : Qt F) : paintCalls qt .null = [] := by
  simp [paintCalls, QDomElement.attribute, QDomElement.attributes]

theorem mappingCalls_null (qt : Qt F) : mappingCalls qt .null = [] := by
  simp [mappingCalls, QDomElement.attribute, QDomElement.attributes]

theorem projectCalls_insert (qt : Qt F) (name : String) (k : Nat) (n : DomTree)
    (doc : QDomDocument) (hname : name = "paints" ∨ name = "mappings")
    (hn : n.toElement = .null) :
    projectCalls qt (insertInDocument name k n doc).documentElement =
      projectCalls qt doc.documentElement := by
  have hsame : ∀ (f : DomTree → List (BuilderCall F)), f n = [] →
      (sectionNodes (insertInDocument name k n doc).documentElement name).flatMap f =
        (sectionNodes doc.documentElement name).flatMap f := by
    intro f hf
    by_cases h : doc.documentElement.firstChildElement name = .null
    · rw [sectionNodes_insert_absent name k n doc h]
    · rw [sectionNodes_insert_same name k n doc h, flatMap_insertAt f k n _ hf]
  unfold projectCalls
  rcases hname with rfl | rfl
  · rw [hsame _ (by simp [hn, paintCalls_null]),
      sectionNodes_insert_other "paints" "mappings" k n doc (by decide)]
  · rw [hsame _ (by simp [hn, mappingCalls_null]),
      sectionNodes_insert_other "mappings" "paints" k n doc (by decide)]

theorem readFile_advances (qt : Qt F) (w : MainWindow F) (device : Option QDomDocument)
    (r : ProjectReader F) :
    ∃ msgs cs, Advances r (readFile qt w device r).2 msgs cs := by
  cases device with
  | none => exact ⟨[], [], by simpa [readFile] using Advances.refl r⟩
  | some doc =>
    by_cases h : passesRootCheck doc
    · rw [readFile_pass qt w doc r h]
      exact ⟨_, _, parseProject_advances qt w doc.documentElement r⟩
    · rw [readFile_reject qt w doc r h]
      exact ⟨_, _, Advances.raise r _⟩

theorem firstElementNamed_first (name : String) (pre post : List DomTree)
    (a : List (String × String)) (c : List DomTree)
    (h : (firstElementNamed name pre).isNull = true) :
    firstElementNamed name (pre ++ .element name a c :: post) = .elem name a c := by
  induction pre with
  | nil => simp [firstElementNamed]
  | cons x rest ih =>
    cases x with
    | element t a2 c2 =>
      by_cases ht : t = name
      · simp [firstElementNamed, ht, QDomElement.isNull] at h
      · simp only [firstElementNamed, ht, if_false] at h
        simp [firstElementNamed, ht, ih h]
    | text d => simpa [firstElementNamed] using ih (by simpa [firstElementNamed] using h)
    | cdata d => simpa [firstElementNamed] using ih (by simpa [firstElementNamed] using h)
    | comment d => simpa [firstElementNamed] using ih (by simpa [firstElementNamed] using h)

theorem sectionNodes_of_isNull (project : QDomElement) (name : String)
    (h : (project.firstChildElement name).isNull = true) : sectionNodes project name = [] := by
  unfold sectionNodes
  cases hf : project.firstChildElement name with
  | null => rfl
  | elem t a c => rw [hf] at h; exact Bool.noConfusion h

theorem parseVertex_null (qt : Qt F) (hzero : qt.floatOf "0" = some qt.zero) :
    _parseVertex qt .null = { x := qt.zero, y := qt.zero } := by
  simp [_parseVertex, QDomElement.attribute, QDomElement.attributes, Qt.toFloat, hzero]

theorem nodeAt_toElement (l : List DomTree) (i : Nat) :
    (nodeAt l i).toElement =
      match l.get? i with
      | some c => c.toElement
      | none => .null := by
  unfold nodeAt
  cases l.get? i <;> rfl

theorem trianglePoints_get (qt : Qt F) (triangle : QDomElement) (i : Nat) (hi : i < 3) :
    (trianglePoints qt triangle).get? i =
      some (_parseVertex qt (nodeAt triangle.childNodes i).toElement) := by
  interval_cases i <;> rfl

theorem readFile_calls (qt : Qt F) (w : MainWindow F) (device : Option QDomDocument)
    (r : ProjectReader F) :
    (readFile qt w device r).2.calls = r.calls ++ deviceCalls qt device := by
  cases device with
  | none => simp [readFile, deviceCalls]
  | some doc =>
    by_cases h : passesRootCheck doc
    · rw [readFile_pass qt w doc r h, (parseProject_advances qt w _ r).calls]
      have h' : doc.documentElement.tagName = "project" ∧
          doc.documentElement.attribute "version" "" = "1.0" := h
      simp [deviceCalls, h']
    · rw [readFile_reject qt w doc r h]
      have h' : ¬ (doc.documentElement.tagName = "project" ∧
          doc.documentElement.attribute "version" "" = "1.0") := h
      simp only [deviceCalls, if_neg h']
      simp [raiseError]

theorem hasError_of_advances {r r' : ProjectReader F} {msgs : List String}
    {cs : List (BuilderCall F)} (h : Advances r r' msgs cs) (hr : r.hasError = true) :
    r'.hasError = true := by
  rw [h.hasError, hr]
  rfl

theorem echoWindow_neverFails : neverFails (qtC (-1)) (echoWindow (-1)) := by
  constructor
  · intro hist id uri x y
    show (if id = -1 then (1 : Int) else id) ≠ -1
    split <;> omega
  · intro hist id paintId src dst
    show (if id = -1 then (1 : Int) else id) ≠ -1
    split <;> omega

end Lemmas

/-! ## The claims -/

/-- C1: for a document that passes the root check, whose `paints` children are all
image paints and whose `mappings` children are all triangle-texture mappings with
triangle `destination` and `source` (shape attribute `triangle`, three child nodes),
`readFile` on a reader without error and a window that never answers `NULL_UID`
returns true, and the window receives one `createImagePaint` per paint followed by
one `createTriangleTextureMapping` per mapping, each in document order. -/
theorem readFile_valid_document {F : Type} (qt : Qt F) (w : MainWindow F) (doc : QDomDocument)
    (r : ProjectReader F) (hroot : passesRootCheck doc)
    (hpaints : ∀ p ∈ sectionNodes doc.documentElement "paints", isImagePaint p.toElement)
    (hmappings : ∀ m ∈ sectionNodes doc.documentElement "mappings",
      isTriangleTextureMapping m.toElement)
    (hr : r.hasError = false) (hw : neverFails qt w) :
    (readFile qt w (some doc) r).1 = true ∧
    (readFile qt w (some doc) r).2.calls = r.calls ++
      (sectionNodes doc.documentElement "paints").map (fun p => imagePaintCall qt p.toElement) ++
      (sectionNodes doc.documentElement "mappings").map
        (fun m => triangleMappingCall qt m.toElement) := by
  rw [readFile_pass qt w doc r hroot]
  have h := parseProject_advances qt w doc.documentElement r
  have hp := fun hist => paintLoopMsgs_valid qt w hw _ hist hpaints
  have hm := fun hist => mappingLoopMsgs_valid qt w hw _ hist hmappings
  constructor
  · simp [h.hasError, hr, projectMsgs, (hp _).1, (hm _).1]
  · simp [h.calls, projectCalls, (hp []).2, (hm []).2]

theorem readFile_valid_document_witness :
    passesRootCheck validDoc ∧
    (readFile (qtC (-1)) (echoWindow (-1)) (some validDoc) reader0).1 = true ∧
    (readFile (qtC (-1)) (echoWindow (-1)) (some validDoc) reader0).2.calls = reader0.calls ++
      (sectionNodes validDoc.documentElement "paints").map
        (fun p => imagePaintCall (qtC (-1)) p.toElement) ++
      (sectionNodes validDoc.documentElement "mappings").map
        (fun m => triangleMappingCall (qtC (-1)) m.toElement) :=
  ⟨by decide, readFile_valid_document (qtC (-1)) (echoWindow (-1)) validDoc reader0
    (by decide) (by decide) (by decide) rfl echoWindow_neverFails⟩

/-- C2: for a parsed document whose root tag is not `project` or whose `version`
attribute is not `1.0`, `readFile` returns false, records the error and sends
nothing to the window, whatever the sections contain. -/
theorem readFile_wrong_root {F : Type} (qt : Qt F) (w : MainWindow F) (doc : QDomDocument)
    (r : ProjectReader F)
    (h : doc.documentElement.tagName ≠ "project" ∨
      doc.documentElement.attribute "version" "" ≠ "1.0") :
    (readFile qt w (some doc) r).1 = false ∧
    (readFile qt w (some doc) r).2.hasError = true ∧
    (readFile qt w (some doc) r).2.raised =
      r.raised ++ [qt.tr "The file is not a libremapping version 1.0 file."] ∧
    (readFile qt w (some doc) r).2.calls = r.calls := by
  have hn : ¬ passesRootCheck doc := by
    rintro ⟨h1, h2⟩
    rcases h with h | h
    · exact h h1
    · exact h h2
  rw [readFile_reject qt w doc r hn]
  simp [raiseError]

theorem readFile_wrong_root_witness :
    (readFile (qtC (-1)) (echoWindow (-1)) (some wrongVersionDoc) reader0).1 = false ∧
    (readFile (qtC (-1)) (echoWindow (-1)) (some wrongVersionDoc) reader0).2.hasError = true ∧
    (readFile (qtC (-1)) (echoWindow (-1)) (some wrongVersionDoc) reader0).2.raised =
      reader0.raised ++ [(qtC (-1)).tr "The file is not a libremapping version 1.0 file."] ∧
    (readFile (qtC (-1)) (echoWindow (-1)) (some wrongVersionDoc) reader0).2.calls =
      reader0.calls :=
  readFile_wrong_root (qtC (-1)) (echoWindow (-1)) wrongVersionDoc reader0 (Or.inr (by decide))

/-- C3: for a document that passes the root check and a reader without error,
`readFile` returns false exactly when at least one message was raised while the
paints and mappings were processed, and true exactly when none was, whatever the
window answered. -/
theorem readFile_result_iff_raised {F : Type} (qt : Qt F) (w : MainWindow F)
    (doc : QDomDocument) (r : ProjectReader F) (hroot : passesRootCheck doc)
    (hr : r.hasError = false) :
    (readFile qt w (some doc) r).2.raised =
      r.raised ++ projectMsgs qt w r.calls doc.documentElement ∧
    ((readFile qt w (some doc) r).1 = false ↔
      projectMsgs qt w r.calls doc.documentElement ≠ []) ∧
    ((readFile qt w (some doc) r).1 = true ↔
      projectMsgs qt w r.calls doc.documentElement = []) := by
  rw [readFile_pass qt w doc r hroot]
  have h := parseProject_advances qt w doc.documentElement r
  refine ⟨h.raised, ?_, ?_⟩
  · simp [h.hasError, hr, List.isEmpty_iff]
  · simp [h.hasError, hr, List.isEmpty_iff]

theorem readFile_result_iff_raised_witness :
    passesRootCheck continueDoc ∧
    (readFile (qtC (-1)) (refusingWindow 5) (some continueDoc) reader0).2.raised =
      reader0.raised ++
        projectMsgs (qtC (-1)) (refusingWindow 5) reader0.calls continueDoc.documentElement ∧
    ((readFile (qtC (-1)) (refusingWindow 5) (some continueDoc) reader0).1 = false ↔
      projectMsgs (qtC (-1)) (refusingWindow 5) reader0.calls continueDoc.documentElement ≠ []) ∧
    ((readFile (qtC (-1)) (refusingWindow 5) (some continueDoc) reader0).1 = true ↔
      projectMsgs (qtC (-1)) (refusingWindow 5) reader0.calls continueDoc.documentElement = []) :=
  ⟨by decide, readFile_result_iff_raised (qtC (-1)) (refusingWindow 5) continueDoc reader0
    (by decide) rfl⟩

/-- C4: an error never stops the traversal.  For a document that passes the root
check, the calls of the run hold the `createImagePaint` of every image paint among
the children of `paints` and the `createTriangleTextureMapping` of every
triangle-texture mapping among the children of `mappings`, whatever the other
children are; and when some child of `paints` is not an image paint, or some child
of `mappings` has an unsupported type, `readFile` returns false.  So two invalid
paints followed by a valid one give false and the call of the valid one. -/
theorem readFile_continues_after_error {F : Type} (qt : Qt F) (w : MainWindow F)
    (doc : QDomDocument) (r : ProjectReader F) (hroot : passesRootCheck doc) :
    ∃ cs, (readFile qt w (some doc) r).2.calls = r.calls ++ cs ∧
      (∀ p ∈ sectionNodes doc.documentElement "paints", isImagePaint p.toElement →
        imagePaintCall qt p.toElement ∈ cs) ∧
      (∀ m ∈ sectionNodes doc.documentElement "mappings",
        m.toElement.attribute "type" "" = "triangle_texture" →
        triangleMappingCall qt m.toElement ∈ cs) ∧
      ((∃ p ∈ sectionNodes doc.documentElement "paints", ¬ isImagePaint p.toElement) →
        (readFile qt w (some doc) r).1 = false) ∧
      ((∃ m ∈ sectionNodes doc.documentElement "mappings",
          m.toElement.attribute "type" "" ≠ "triangle_texture" ∧
          m.toElement.attribute "type" "" ≠ "mesh_texture") →
        (readFile qt w (some doc) r).1 = false) := by
  rw [readFile_pass qt w doc r hroot]
  have h := parseProject_advances qt w doc.documentElement r
  refine ⟨projectCalls qt doc.documentElement, h.calls, ?_, ?_, ?_, ?_⟩
  · intro p hp himg
    refine List.mem_append_left _ (List.mem_flatMap.mpr ⟨p, hp, ?_⟩)
    have : p.toElement.attribute "type" "" = "image" := himg
    simp [paintCalls, this]
  · intro m hm htri
    refine List.mem_append_right _ (List.mem_flatMap.mpr ⟨m, hm, ?_⟩)
    simp [mappingCalls, htri]
  · intro hbad
    have := paintLoopMsgs_invalid qt w _ r.calls hbad
    simp [h.hasError, projectMsgs, this, List.isEmpty_iff]
  · intro hbad
    have := mappingLoopMsgs_invalid qt w _
      (r.calls ++ (sectionNodes doc.documentElement "paints").flatMap
        (fun t => paintCalls qt t.toElement)) hbad
    simp [h.hasError, projectMsgs, this, List.isEmpty_iff]

theorem readFile_continues_after_error_witness :
    passesRootCheck continueDoc ∧
    (readFile (qtC (-1)) (echoWindow (-1)) (some continueDoc) reader0).1 = false ∧
    (readFile (qtC (-1)) (echoWindow (-1)) (some continueDoc) reader0).2.calls =
      [imagePaintCall (qtC (-1)) (sampleImagePaint "3" "c.png").toElement] := by
  refine ⟨by decide, ?_, by decide⟩
  obtain ⟨cs, -, -, -, hfalse, -⟩ :=
    readFile_continues_after_error (qtC (-1)) (echoWindow (-1)) continueDoc reader0 (by decide)
  refine hfalse ⟨.element "paint" [("id", "1"), ("type", "video")] [], ?_, by decide⟩
  show _ ∈ [_, _, _]
  exact List.mem_cons_self _ _

/-- C5, the claim as stated fails: a comment inserted among the children of `paints`
turns the value returned for a valid document from true to false. -/
theorem readFile_comment_not_skipped :
    (readFile (qtC (-1)) (echoWindow (-1)) (some validDoc) reader0).1 = true ∧
    (readFile (qtC (-1)) (echoWindow (-1))
      (some (insertInDocument "paints" 1 (.comment "note") validDoc)) reader0).1 = false ∧
    (readFile (qtC (-1)) (echoWindow (-1)) (some validDoc) reader0).2.hasError = false ∧
    (readFile (qtC (-1)) (echoWindow (-1))
      (some (insertInDocument "paints" 1 (.comment "note") validDoc)) reader0).2.hasError = true := by
  decide

/-- C5, amended: a node that is not an element, inserted among the children of
`paints` or `mappings`, is not skipped but handed to `parsePaint` or `parseMapping`
as the null element.  The calls of the run are the same as without it; when the
document passes the root check and has the section, the unsupported-type message
with an empty type name is raised and `readFile` returns false. -/
theorem readFile_insert_non_element {F : Type} (qt : Qt F) (w : MainWindow F)
    (doc : QDomDocument) (r : ProjectReader F) (name : String) (k : Nat) (n : DomTree)
    (hname : name = "paints" ∨ name = "mappings") (hn : n.toElement = .null) :
    (readFile qt w (some (insertInDocument name k n doc)) r).2.calls =
      (readFile qt w (some doc) r).2.calls ∧
    (passesRootCheck doc → (doc.documentElement.firstChildElement name).isNull = false →
      (readFile qt w (some (insertInDocument name k n doc)) r).1 = false ∧
      (if name = "paints" then qt.arg (qt.tr "Unsupported paint type: %1.") ""
        else qt.arg (qt.tr "Unsupported mapping type: %1.") "") ∈
        (readFile qt w (some (insertInDocument name k n doc)) r).2.raised) := by
  have hnull : n.toElement.attribute "type" "" = "" := by
    simp [hn, QDomElement.attribute, QDomElement.attributes]
  constructor
  · by_cases hroot : passesRootCheck doc
    · have hroot' := (passesRootCheck_insert name k n doc).mpr hroot
      rw [readFile_pass qt w _ r hroot', readFile_pass qt w _ r hroot]
      simp only
      rw [(parseProject_advances qt w _ r).calls, (parseProject_advances qt w _ r).calls,
        projectCalls_insert qt name k n doc hname hn]
    · have hroot' : ¬ passesRootCheck (insertInDocument name k n doc) :=
        fun h => hroot ((passesRootCheck_insert name k n doc).mp h)
      rw [readFile_reject qt w _ r hroot', readFile_reject qt w _ r hroot]
  · intro hroot hsec0
    have hsec : doc.documentElement.firstChildElement name ≠ .null := by
      intro h
      rw [h] at hsec0
      exact Bool.noConfusion hsec0
    have hroot' := (passesRootCheck_insert name k n doc).mpr hroot
    rw [readFile_pass qt w _ r hroot']
    have h := parseProject_advances qt w (insertInDocument name k n doc).documentElement r
    have hmem : n ∈ sectionNodes (insertInDocument name k n doc).documentElement name := by
      rw [sectionNodes_insert_same name k n doc hsec]
      exact mem_insertAt k n _
    have key : (if name = "paints" then qt.arg (qt.tr "Unsupported paint type: %1.") ""
        else qt.arg (qt.tr "Unsupported mapping type: %1.") "") ∈
        projectMsgs qt w r.calls (insertInDocument name k n doc).documentElement := by
      rcases hname with rfl | rfl
      · have := paintLoopMsgs_mem qt w _ r.calls n hmem
          (by simp [isImagePaint, hnull])
        rw [hnull] at this
        simp only [if_true]
        exact List.mem_append_left _ this
      · have := mappingLoopMsgs_mem qt w _
          (r.calls ++ (sectionNodes (insertInDocument "mappings" k n doc).documentElement
            "paints").flatMap (fun t => paintCalls qt t.toElement)) n hmem
          (by simp [hnull]) (by simp [hnull])
        rw [hnull] at this
        rw [if_neg (by decide)]
        exact List.mem_append_right _ this
    have hne : projectMsgs qt w r.calls (insertInDocument name k n doc).documentElement ≠ [] :=
      List.ne_nil_of_mem key
    constructor
    · simp [h.hasError, hne, List.isEmpty_iff]
    · simp only
      rw [h.raised]
      exact List.mem_append_right _ key

theorem readFile_insert_non_element_witness :
    (readFile (qtC (-1)) (echoWindow (-1))
      (some (insertInDocument "mappings" 0 (.text "x") validDoc)) reader0).2.calls =
      (readFile (qtC (-1)) (echoWindow (-1)) (some validDoc) reader0).2.calls ∧
    (readFile (qtC (-1)) (echoWindow (-1))
      (some (insertInDocument "mappings" 0 (.text "x") validDoc)) reader0).1 = false :=
  have h := readFile_insert_non_element (qtC (-1)) (echoWindow (-1)) validDoc reader0
    "mappings" 0 (.text "x") (Or.inr rfl) rfl
  ⟨h.1, (h.2 (by decide) (by decide)).1⟩

/-- C6: the error slot is last-write-wins.  After any `readFile`, the message in the
slot is the last of the messages raised during the run (the previous content when
none was raised), and `errorString` is built from that message alone.  For a
triangle-texture mapping whose `destination` has a wrong shape attribute and whose
creation the window refuses, `parseMapping` raises the shape-type message and then
the creation-failure message, and the slot holds the creation-failure message. -/
theorem error_slot_last_write_wins {F : Type} (qt : Qt F) (w : MainWindow F)
    (device : Option QDomDocument) (r : ProjectReader F) (mapping : QDomElement) :
    (∃ msgs, (readFile qt w device r).2.raised = r.raised ++ msgs ∧
      (readFile qt w device r).2.xmlErrorString = msgs.getLast?.getD r.xmlErrorString ∧
      errorString qt (readFile qt w device r).2 =
        qt.arg (qt.arg (qt.arg (qt.tr "%1\nLine %2, column %3")
          (msgs.getLast?.getD r.xmlErrorString))
          (qt.number r.lineNumber)) (qt.number r.columnNumber)) ∧
    (mapping.attribute "type" "" = "triangle_texture" →
      (mapping.firstChildElement "destination").attribute "shape" "" ≠ "triangle" →
      w.createTriangleTextureMapping r.calls
        (qt.toInt (mapping.attribute "id" (qt.number qt.NULL_UID)))
        (qt.toInt (mapping.attribute "paint_id" (qt.number qt.NULL_UID)))
        (trianglePoints qt (mapping.firstChildElement "source"))
        (trianglePoints qt (mapping.firstChildElement "destination")) = qt.NULL_UID →
      (∃ pre, (parseMapping qt w mapping r).raised =
        r.raised ++ qt.arg (qt.tr "Wrong shape type for destination: %1.")
          ((mapping.firstChildElement "destination").attribute "shape" "") :: pre ++
          [qt.tr "Cannot create triangle texture mapping"]) ∧
      (parseMapping qt w mapping r).xmlErrorString =
        qt.tr "Cannot create triangle texture mapping") := by
  refine ⟨?_, fun htype hshape hfail => ⟨?_, ?_⟩⟩
  · obtain ⟨msgs, cs, h⟩ := readFile_advances qt w device r
    exact ⟨msgs, h.raised, h.slot, by simp [errorString, h.slot, h.line, h.column]⟩
  · have h := parseMapping_advances qt w mapping r
    refine ⟨(if (mapping.firstChildElement "destination").childNodes.length ≠ 3 then
        [qt.tr "Shape has wrong number of vertices."] else []) ++
        triangleMsgs qt (mapping.firstChildElement "source"), ?_⟩
    rw [h.raised]
    simp [mappingMsgs, htype, hfail, triangleMsgs, hshape]
  · have h := parseMapping_advances qt w mapping r
    rw [h.slot]
    simp [mappingMsgs, htype, hfail, List.getLast?_append]

theorem error_slot_last_write_wins_witness :
    (parseMapping (qtC (-1)) (refusingWindow (-1)) wrongShapeMapping reader0).raised =
      ["Wrong shape type for destination: quad.", "Cannot create triangle texture mapping"] ∧
    (parseMapping (qtC (-1)) (refusingWindow (-1)) wrongShapeMapping reader0).xmlErrorString =
      (qtC (-1)).tr "Cannot create triangle texture mapping" :=
  ⟨by decide, ((error_slot_last_write_wins (qtC (-1)) (refusingWindow (-1)) none reader0
    wrongShapeMapping).2 (by decide) (by decide) rfl).2⟩

/-- C7, the claim as stated fails: with `NULL_UID` at -1, an image paint whose `id`
is the text `abc`, which is not an integer, is created with identifier 0. -/
theorem unparsable_id_is_zero :
    (qtC (-1)).intOf "abc" = none ∧
    (parsePaint (qtC (-1)) (echoWindow (-1)) badIdPaint reader0).calls =
      [BuilderCall.createImagePaint 0 "a.png" ⟨0, 0⟩ ⟨0, 0⟩] ∧
    (0 : Int) ≠ (qtC (-1)).NULL_UID := by
  decide

/-- C7, amended: for an image paint and for a triangle-texture mapping, when the
`id` (for a mapping also the `paint_id`) attribute is missing the identifier passed
to the window is `NULL_UID`, provided `QString::number(NULL_UID)` converts back to
`NULL_UID`; when the attribute is text that does not convert to an integer the
identifier passed is 0. -/
theorem identifier_defaults {F : Type} (qt : Qt F) (w : MainWindow F) (e : QDomElement)
    (r : ProjectReader F) (hround : qt.intOf (qt.number qt.NULL_UID) = some qt.NULL_UID) :
    (isImagePaint e → ∃ id uri x y,
      (parsePaint qt w e r).calls = r.calls ++ [BuilderCall.createImagePaint id uri x y] ∧
      (e.attributes.lookup "id" = none → id = qt.NULL_UID) ∧
      (∀ s, e.attributes.lookup "id" = some s → qt.intOf s = none → id = 0)) ∧
    (e.attribute "type" "" = "triangle_texture" → ∃ id paintId src dst,
      (parseMapping qt w e r).calls =
        r.calls ++ [BuilderCall.createTriangleTextureMapping id paintId src dst] ∧
      (e.attributes.lookup "id" = none → id = qt.NULL_UID) ∧
      (∀ s, e.attributes.lookup "id" = some s → qt.intOf s = none → id = 0) ∧
      (e.attributes.lookup "paint_id" = none → paintId = qt.NULL_UID) ∧
      (∀ s, e.attributes.lookup "paint_id" = some s → qt.intOf s = none → paintId = 0)) := by
  have hmissing : ∀ name, e.attributes.lookup name = none →
      qt.toInt (e.attribute name (qt.number qt.NULL_UID)) = qt.NULL_UID := by
    intro name h
    simp [QDomElement.attribute, h, Qt.toInt, hround]
  have hbad : ∀ name s, e.attributes.lookup name = some s → qt.intOf s = none →
      qt.toInt (e.attribute name (qt.number qt.NULL_UID)) = 0 := by
    intro name s h hs
    simp [QDomElement.attribute, h, Qt.toInt, hs]
  constructor
  · intro himg
    have himg' : e.attribute "type" "" = "image" := himg
    refine ⟨qt.toInt (e.attribute "id" (qt.number qt.NULL_UID)),
      (e.firstChildElement "uri").text, qt.toFloat (e.firstChildElement "x").text,
      qt.toFloat (e.firstChildElement "y").text, ?_, hmissing "id", hbad "id"⟩
    rw [(parsePaint_advances qt w e r).calls]
    simp [paintCalls, himg', imagePaintCall]
  · intro htri
    refine ⟨qt.toInt (e.attribute "id" (qt.number qt.NULL_UID)),
      qt.toInt (e.attribute "paint_id" (qt.number qt.NULL_UID)),
      trianglePoints qt (e.firstChildElement "source"),
      trianglePoints qt (e.firstChildElement "destination"), ?_,
      hmissing "id", hbad "id", hmissing "paint_id", hbad "paint_id"⟩
    rw [(parseMapping_advances qt w e r).calls]
    simp [mappingCalls, htri, triangleMappingCall]

theorem identifier_defaults_witness :
    (qtC (-1)).intOf ((qtC (-1)).number (qtC (-1)).NULL_UID) = some (qtC (-1)).NULL_UID ∧
    isImagePaint bareImagePaint ∧
    ∃ id uri x y,
      (parsePaint (qtC (-1)) (echoWindow (-1)) bareImagePaint reader0).calls =
        reader0.calls ++ [BuilderCall.createImagePaint id uri x y] ∧
      (bareImagePaint.attributes.lookup "id" = none → id = (qtC (-1)).NULL_UID) ∧
      (∀ s, bareImagePaint.attributes.lookup "id" = some s → (qtC (-1)).intOf s = none →
        id = 0) :=
  ⟨by decide, by decide,
    (identifier_defaults (qtC (-1)) (echoWindow (-1)) bareImagePaint reader0 (by decide)).1
      (by decide)⟩

/-- C8: for a mapping element of type `mesh_texture`, whatever its other attributes
and children, `parseMapping` leaves the reader as it was: no call, no message, the
error state unchanged. -/
theorem parseMapping_mesh_texture {F : Type} (qt : Qt F) (w : MainWindow F)
    (mapping : QDomElement) (r : ProjectReader F)
    (h : mapping.attribute "type" "" = "mesh_texture") :
    parseMapping qt w mapping r = r := by
  simp [parseMapping, h]

theorem parseMapping_mesh_texture_witness :
    meshMapping.attribute "type" "" = "mesh_texture" ∧
    parseMapping (qtC (-1)) (refusingWindow (-1)) meshMapping reader0 = reader0 :=
  ⟨by decide, parseMapping_mesh_texture (qtC (-1)) (refusingWindow (-1)) meshMapping reader0
    (by decide)⟩

/-- C9: for a paint element of type `image`, `parsePaint` sends exactly one call,
`createImagePaint`, with the integer value of the `id` attribute, the text of the
first `uri` child and the float values of the texts of the first `x` and `y`
children; a missing `uri`, `x` or `y` child gives the empty string, 0.0 and 0.0
(the conversion of the empty string to a float fails), and the call is still made. -/
theorem parsePaint_image_call {F : Type} (qt : Qt F) (w : MainWindow F) (paint : QDomElement)
    (r : ProjectReader F) (himg : isImagePaint paint) (hempty : qt.floatOf "" = none) :
    ∃ uri x y,
      (parsePaint qt w paint r).calls = r.calls ++
        [BuilderCall.createImagePaint (qt.toInt (paint.attribute "id" (qt.number qt.NULL_UID)))
          uri x y] ∧
      uri = (paint.firstChildElement "uri").text ∧
      x = qt.toFloat (paint.firstChildElement "x").text ∧
      y = qt.toFloat (paint.firstChildElement "y").text ∧
      ((paint.firstChildElement "uri").isNull = true → uri = "") ∧
      ((paint.firstChildElement "x").isNull = true → x = qt.zero) ∧
      ((paint.firstChildElement "y").isNull = true → y = qt.zero) := by
  have himg' : paint.attribute "type" "" = "image" := himg
  have htext : ∀ e : QDomElement, e.isNull = true → e.text = "" := by
    intro e he
    cases e with
    | null => rfl
    | elem t a c => exact Bool.noConfusion he
  have hzero : ∀ e : QDomElement, e.isNull = true → qt.toFloat e.text = qt.zero := by
    intro e he
    simp [htext e he, Qt.toFloat, hempty]
  refine ⟨(paint.firstChildElement "uri").text, qt.toFloat (paint.firstChildElement "x").text,
    qt.toFloat (paint.firstChildElement "y").text, ?_, rfl, rfl, rfl, htext _, hzero _, hzero _⟩
  rw [(parsePaint_advances qt w paint r).calls]
  simp [paintCalls, himg', imagePaintCall]

theorem parsePaint_image_call_witness :
    isImagePaint bareImagePaint ∧ (qtC (-1)).floatOf "" = none ∧
    (parsePaint (qtC (-1)) (echoWindow (-1)) bareImagePaint reader0).calls =
      [BuilderCall.createImagePaint (-1) "a.png" ⟨0, 0⟩ ⟨0, 0⟩] := by
  refine ⟨by decide, by decide, ?_⟩
  obtain ⟨uri, x, y, hcalls, huri, -, -, -, hx, hy⟩ :=
    parsePaint_image_call (qtC (-1)) (echoWindow (-1)) bareImagePaint reader0
      (by decide) (by decide)
  rw [hcalls, huri, hx (by decide), hy (by decide)]
  decide

/-- C10: for a paint element of type `image`, `parsePaint` raises a message exactly
when `createImagePaint` answers `NULL_UID`; the message is then the creation-failure
message made from the paint's uri, and a successful creation raises nothing and
leaves the error state as it was. -/
theorem parsePaint_image_error {F : Type} (qt : Qt F) (w : MainWindow F) (paint : QDomElement)
    (r : ProjectReader F) (himg : isImagePaint paint) :
    ((parsePaint qt w paint r).raised ≠ r.raised ↔
      w.createImagePaint r.calls (qt.toInt (paint.attribute "id" (qt.number qt.NULL_UID)))
        (paint.firstChildElement "uri").text (qt.toFloat (paint.firstChildElement "x").text)
        (qt.toFloat (paint.firstChildElement "y").text) = qt.NULL_UID) ∧
    (w.createImagePaint r.calls (qt.toInt (paint.attribute "id" (qt.number qt.NULL_UID)))
        (paint.firstChildElement "uri").text (qt.toFloat (paint.firstChildElement "x").text)
        (qt.toFloat (paint.firstChildElement "y").text) = qt.NULL_UID →
      (parsePaint qt w paint r).raised = r.raised ++
        [qt.arg (qt.tr "Cannot create image with uri %1.") (paint.firstChildElement "uri").text] ∧
      (parsePaint qt w paint r).hasError = true ∧
      (parsePaint qt w paint r).xmlErrorString =
        qt.arg (qt.tr "Cannot create image with uri %1.") (paint.firstChildElement "uri").text) ∧
    (w.createImagePaint r.calls (qt.toInt (paint.attribute "id" (qt.number qt.NULL_UID)))
        (paint.firstChildElement "uri").text (qt.toFloat (paint.firstChildElement "x").text)
        (qt.toFloat (paint.firstChildElement "y").text) ≠ qt.NULL_UID →
      (parsePaint qt w paint r).raised = r.raised ∧
      (parsePaint qt w paint r).hasError = r.hasError ∧
      (parsePaint qt w paint r).xmlErrorString = r.xmlErrorString) := by
  have himg' : paint.attribute "type" "" = "image" := himg
  have h := parsePaint_advances qt w paint r
  by_cases hret : w.createImagePaint r.calls
      (qt.toInt (paint.attribute "id" (qt.number qt.NULL_UID)))
      (paint.firstChildElement "uri").text (qt.toFloat (paint.firstChildElement "x").text)
      (qt.toFloat (paint.firstChildElement "y").text) = qt.NULL_UID
  · have hm : paintMsgs qt w r.calls paint =
        [qt.arg (qt.tr "Cannot create image with uri %1.") (paint.firstChildElement "uri").text] := by
      simp [paintMsgs, himg', hret]
    rw [hm] at h
    refine ⟨?_, ?_, ?_⟩
    · simp [h.raised, hret]
    · intro _
      exact ⟨h.raised, by simp [h.hasError], by simp [h.slot]⟩
    · intro hne
      exact absurd hret hne
  · have hm : paintMsgs qt w r.calls paint = [] := by
      simp [paintMsgs, himg', hret]
    rw [hm] at h
    refine ⟨?_, ?_, ?_⟩
    · simp [h.raised, hret]
    · intro he
      exact absurd he hret
    · intro _
      exact ⟨by simp [h.raised], by simp [h.hasError], by simp [h.slot]⟩

theorem parsePaint_image_error_witness :
    isImagePaint bareImagePaint ∧
    (parsePaint (qtC (-1)) (refusingWindow (-1)) bareImagePaint reader0).raised =
      reader0.raised ++ [(qtC (-1)).arg ((qtC (-1)).tr "Cannot create image with uri %1.")
        (bareImagePaint.firstChildElement "uri").text] ∧
    (parsePaint (qtC (-1)) (refusingWindow (-1)) bareImagePaint reader0).xmlErrorString =
      "Cannot create image with uri a.png." := by
  have h := ((parsePaint_image_error (qtC (-1)) (refusingWindow (-1)) bareImagePaint reader0
    (by decide)).2.1 rfl)
  exact ⟨by decide, h.1, by rw [h.2.2]; decide⟩

/-- C11: for a paint element whose `type` attribute is anything other than `image`
(absent and empty included), `parsePaint` raises the unsupported-paint-type message
made from that type and sends nothing to the window. -/
theorem parsePaint_unsupported_type {F : Type} (qt : Qt F) (w : MainWindow F)
    (paint : QDomElement) (r : ProjectReader F) (h : paint.attribute "type" "" ≠ "image") :
    (parsePaint qt w paint r).raised =
      r.raised ++ [qt.arg (qt.tr "Unsupported paint type: %1.") (paint.attribute "type" "")] ∧
    (parsePaint qt w paint r).hasError = true ∧
    (parsePaint qt w paint r).xmlErrorString =
      qt.arg (qt.tr "Unsupported paint type: %1.") (paint.attribute "type" "") ∧
    (parsePaint qt w paint r).calls = r.calls := by
  simp [parsePaint, h, raiseError]

theorem parsePaint_unsupported_type_witness :
    videoPaint.attribute "type" "" ≠ "image" ∧
    (parsePaint (qtC (-1)) (echoWindow (-1)) videoPaint reader0).raised =
      ["Unsupported paint type: video."] ∧
    (parsePaint (qtC (-1)) (echoWindow (-1)) videoPaint reader0).calls = reader0.calls := by
  have h := parsePaint_unsupported_type (qtC (-1)) (echoWindow (-1)) videoPaint reader0
    (by decide)
  exact ⟨by decide, by rw [h.1]; decide, h.2.2.2⟩

/-- C12: for a document that passes the root check, an absent section has no nodes,
and a section without nodes contributes no call and no message: the run is then
that of the other section alone.  A `project` root of version 1.0 without children
leaves the reader untouched, so `readFile` returns true on a reader without error
and the window receives nothing.  The nodes traversed are the children of the first
child named `paints` and of the first child named `mappings`, whatever follows
them. -/
theorem readFile_absent_sections {F : Type} (qt : Qt F) (w : MainWindow F)
    (doc : QDomDocument) (r : ProjectReader F) (hroot : passesRootCheck doc) :
    (∀ name, (doc.documentElement.firstChildElement name).isNull = true →
      sectionNodes doc.documentElement name = []) ∧
    (sectionNodes doc.documentElement "paints" = [] →
      (readFile qt w (some doc) r).2.calls = r.calls ++
        (sectionNodes doc.documentElement "mappings").flatMap
          (fun m => mappingCalls qt m.toElement) ∧
      (readFile qt w (some doc) r).2.raised = r.raised ++
        mappingLoopMsgs qt w r.calls (sectionNodes doc.documentElement "mappings")) ∧
    (sectionNodes doc.documentElement "mappings" = [] →
      (readFile qt w (some doc) r).2.calls = r.calls ++
        (sectionNodes doc.documentElement "paints").flatMap
          (fun p => paintCalls qt p.toElement) ∧
      (readFile qt w (some doc) r).2.raised = r.raised ++
        paintLoopMsgs qt w r.calls (sectionNodes doc.documentElement "paints")) ∧
    (doc.documentElement.childNodes = [] →
      (readFile qt w (some doc) r).2 = r ∧
      (r.hasError = false → (readFile qt w (some doc) r).1 = true)) ∧
    (readFile qt w (some doc) r).2.calls = r.calls ++
      (sectionNodes doc.documentElement "paints").flatMap (fun p => paintCalls qt p.toElement) ++
      (sectionNodes doc.documentElement "mappings").flatMap
        (fun m => mappingCalls qt m.toElement) ∧
    (∀ name pre a c post, doc.documentElement.childNodes = pre ++ .element name a c :: post →
      (firstElementNamed name pre).isNull = true →
      sectionNodes doc.documentElement name = c) := by
  rw [readFile_pass qt w doc r hroot]
  have h := parseProject_advances qt w doc.documentElement r
  refine ⟨fun name hn => sectionNodes_of_isNull _ name hn, ?_, ?_, ?_, ?_, ?_⟩
  · intro hp
    constructor
    · simp [h.calls, projectCalls, hp]
    · simp [h.raised, projectMsgs, hp, paintLoopMsgs]
  · intro hm
    constructor
    · simp [h.calls, projectCalls, hm]
    · simp [h.raised, projectMsgs, hm, mappingLoopMsgs]
  · intro hc
    have hp : sectionNodes doc.documentElement "paints" = [] := by
      unfold sectionNodes QDomElement.firstChildElement
      rw [hc]
      rfl
    have hm : sectionNodes doc.documentElement "mappings" = [] := by
      unfold sectionNodes QDomElement.firstChildElement
      rw [hc]
      rfl
    have hr : parseProject qt w doc.documentElement r = r := by
      unfold parseProject
      have hp' : (doc.documentElement.firstChildElement "paints").childNodes = [] := hp
      have hm' : (doc.documentElement.firstChildElement "mappings").childNodes = [] := hm
      simp [hp', hm', paintLoop, mappingLoop]
    simp only [hr]
    exact ⟨trivial, fun he => by simp [he]⟩
  · simp [h.calls, projectCalls]
  · intro name pre a c post hc hpre
    unfold sectionNodes QDomElement.firstChildElement
    rw [hc, firstElementNamed_first name pre post a c hpre]
    rfl

theorem readFile_absent_sections_witness :
    passesRootCheck emptyProjectDoc ∧
    (readFile (qtC (-1)) (refusingWindow (-1)) (some emptyProjectDoc) reader0).2 = reader0 ∧
    (readFile (qtC (-1)) (refusingWindow (-1)) (some emptyProjectDoc) reader0).1 = true ∧
    (readFile (qtC (-1)) (echoWindow (-1)) (some twoSectionsDoc) reader0).1 = true ∧
    (readFile (qtC (-1)) (echoWindow (-1)) (some twoSectionsDoc) reader0).2.calls =
      [imagePaintCall (qtC (-1)) (sampleImagePaint "1" "a.png").toElement] := by
  have h := (readFile_absent_sections (qtC (-1)) (refusingWindow (-1)) emptyProjectDoc reader0
    (by decide)).2.2.2.1 rfl
  exact ⟨by decide, h.1, h.2 rfl, by decide, by decide⟩

/-- C13: for a shape element with `shape="triangle"`, `_parseTriangle` raises a
message exactly when the number of child nodes is not 3, and the message is then
the wrong-vertex-count one; with exactly three children it raises nothing and the
output list is the three points read from the `x` and `y` attributes of the
children, in document order. -/
theorem parseTriangle_vertex_count {F : Type} (qt : Qt F) (triangle : QDomElement)
    (points : List (QPointF F)) (r : ProjectReader F)
    (hshape : triangle.attribute "shape" "" = "triangle") :
    ((_parseTriangle qt triangle points r).1.raised ≠ r.raised ↔
      triangle.childNodes.length ≠ 3) ∧
    (triangle.childNodes.length ≠ 3 →
      (_parseTriangle qt triangle points r).1.raised =
        r.raised ++ [qt.tr "Shape has wrong number of vertices."] ∧
      (_parseTriangle qt triangle points r).1.hasError = true) ∧
    (∀ a b c, triangle.childNodes = [a, b, c] →
      (_parseTriangle qt triangle points r).1 = r ∧
      (_parseTriangle qt triangle points r).2 =
        [{ x := qt.toFloat (a.toElement.attribute "x" "0"),
           y := qt.toFloat (a.toElement.attribute "y" "0") },
         { x := qt.toFloat (b.toElement.attribute "x" "0"),
           y := qt.toFloat (b.toElement.attribute "y" "0") },
         { x := qt.toFloat (c.toElement.attribute "x" "0"),
           y := qt.toFloat (c.toElement.attribute "y" "0") }]) := by
  have h := parseTriangle_advances qt triangle points r
  refine ⟨?_, ?_, ?_⟩
  · rw [h.raised]
    by_cases hl : triangle.childNodes.length = 3 <;> simp [triangleMsgs, hshape, hl]
  · intro hl
    constructor
    · rw [h.raised]
      simp [triangleMsgs, hshape, hl]
    · rw [h.hasError]
      simp [triangleMsgs, hshape, hl]
  · intro a b c habc
    constructor
    · simp [_parseTriangle, hshape, habc]
    · rw [parseTriangle_points]
      simp [trianglePoints, habc, nodeAt, _parseVertex, DomTree.toElement]

theorem parseTriangle_vertex_count_witness :
    (_parseTriangle (qtC (-1))
      (shapeWith [sampleVertex "0" "0", sampleVertex "1" "0"]) [] reader0).1.raised =
      ["Shape has wrong number of vertices."] ∧
    (_parseTriangle (qtC (-1))
      (shapeWith [sampleVertex "0" "0", sampleVertex "1" "0", sampleVertex "0" "1",
        sampleVertex "1" "1"]) [] reader0).1.raised =
      ["Shape has wrong number of vertices."] ∧
    (_parseTriangle (qtC (-1))
      (shapeWith [sampleVertex "0" "0", sampleVertex "1.5" "0", sampleVertex "0" "-2"])
      [] reader0).1.raised = [] ∧
    (_parseTriangle (qtC (-1))
      (shapeWith [sampleVertex "0" "0", sampleVertex "1.5" "0", sampleVertex "0" "-2"])
      [] reader0).2 = [⟨⟨0, 0⟩, ⟨0, 0⟩⟩, ⟨⟨15, 1⟩, ⟨0, 0⟩⟩, ⟨⟨0, 0⟩, ⟨-2, 0⟩⟩] := by
  have h2 := (parseTriangle_vertex_count (qtC (-1))
    (shapeWith [sampleVertex "0" "0", sampleVertex "1" "0"]) [] reader0 (by decide)).2.1
    (by decide)
  exact ⟨h2.1, by decide, by decide, by decide⟩

/-- C14: for a mapping element of type `triangle_texture`, `parseMapping` sends
exactly one call, `createTriangleTextureMapping`, whatever the two shape parses
raised; its arguments are the integer values of `id` and `paint_id`, the points
`_parseTriangle` reads from the `source` child and those it reads from the
`destination` child, in that order; when the window answers `NULL_UID` the
creation-failure message is raised last, and otherwise only the shape messages are
raised. -/
theorem parseMapping_triangle_texture_call {F : Type} (qt : Qt F) (w : MainWindow F)
    (mapping : QDomElement) (r : ProjectReader F)
    (h : mapping.attribute "type" "" = "triangle_texture") :
    (parseMapping qt w mapping r).calls = r.calls ++
      [BuilderCall.createTriangleTextureMapping
        (qt.toInt (mapping.attribute "id" (qt.number qt.NULL_UID)))
        (qt.toInt (mapping.attribute "paint_id" (qt.number qt.NULL_UID)))
        (_parseTriangle qt (mapping.firstChildElement "source") [] r).2
        (_parseTriangle qt (mapping.firstChildElement "destination") [] r).2] ∧
    (w.createTriangleTextureMapping r.calls
        (qt.toInt (mapping.attribute "id" (qt.number qt.NULL_UID)))
        (qt.toInt (mapping.attribute "paint_id" (qt.number qt.NULL_UID)))
        (_parseTriangle qt (mapping.firstChildElement "source") [] r).2
        (_parseTriangle qt (mapping.firstChildElement "destination") [] r).2 = qt.NULL_UID →
      (parseMapping qt w mapping r).raised = r.raised ++
        (triangleMsgs qt (mapping.firstChildElement "destination") ++
         triangleMsgs qt (mapping.firstChildElement "source")) ++
        [qt.tr "Cannot create triangle texture mapping"] ∧
      (parseMapping qt w mapping r).hasError = true ∧
      (parseMapping qt w mapping r).xmlErrorString =
        qt.tr "Cannot create triangle texture mapping") ∧
    (w.createTriangleTextureMapping r.calls
        (qt.toInt (mapping.attribute "id" (qt.number qt.NULL_UID)))
        (qt.toInt (mapping.attribute "paint_id" (qt.number qt.NULL_UID)))
        (_parseTriangle qt (mapping.firstChildElement "source") [] r).2
        (_parseTriangle qt (mapping.firstChildElement "destination") [] r).2 ≠ qt.NULL_UID →
      (parseMapping qt w mapping r).raised = r.raised ++
        (triangleMsgs qt (mapping.firstChildElement "destination") ++
         triangleMsgs qt (mapping.firstChildElement "source"))) := by
  have ha := parseMapping_advances qt w mapping r
  simp only [parseTriangle_points]
  refine ⟨?_, ?_, ?_⟩
  · rw [ha.calls]
    simp [mappingCalls, h, triangleMappingCall]
  · intro hret
    refine ⟨?_, ?_, ?_⟩
    · rw [ha.raised]
      simp [mappingMsgs, h, hret]
    · rw [ha.hasError]
      simp [mappingMsgs, h, hret]
    · rw [ha.slot]
      simp [mappingMsgs, h, hret, List.getLast?_append]
  · intro hret
    rw [ha.raised]
    simp [mappingMsgs, h, hret]

theorem parseMapping_triangle_texture_call_witness :
    wrongShapeMapping.attribute "type" "" = "triangle_texture" ∧
    (parseMapping (qtC (-1)) (refusingWindow (-1)) wrongShapeMapping reader0).calls =
      [BuilderCall.createTriangleTextureMapping 3 1
        [⟨⟨0, 0⟩, ⟨0, 0⟩⟩, ⟨⟨15, 1⟩, ⟨0, 0⟩⟩, ⟨⟨0, 0⟩, ⟨-2, 0⟩⟩]
        [⟨⟨0, 0⟩, ⟨0, 0⟩⟩, ⟨⟨1, 0⟩, ⟨0, 0⟩⟩, ⟨⟨0, 0⟩, ⟨1, 0⟩⟩]] ∧
    (parseMapping (qtC (-1)) (refusingWindow (-1)) wrongShapeMapping reader0).xmlErrorString =
      "Cannot create triangle texture mapping" := by
  have h := parseMapping_triangle_texture_call (qtC (-1)) (refusingWindow (-1))
    wrongShapeMapping reader0 (by decide)
  exact ⟨by decide, by rw [h.1]; decide, (h.2.1 rfl).2.2⟩

/-- C15: for a shape element whose `shape` attribute is not `triangle` (absent
included), `_parseTriangle` raises the wrong-shape-type message made from the actual
value, and still clears the output list and fills it from the children: whatever
the list held, it ends as the three points `_parseVertex` reads from child nodes 0,
1 and 2 (for children `a`, `b`, `c` the points of their `x` and `y` attributes, in
order), which are the points left for a `shape="triangle"` element with the same
children. -/
theorem parseTriangle_wrong_shape {F : Type} (qt : Qt F) (triangle : QDomElement)
    (points : List (QPointF F)) (r : ProjectReader F)
    (h : triangle.attribute "shape" "" ≠ "triangle") :
    (∃ rest, (_parseTriangle qt triangle points r).1.raised = r.raised ++
      qt.arg (qt.tr "Wrong shape type for destination: %1.") (triangle.attribute "shape" "")
        :: rest) ∧
    (_parseTriangle qt triangle points r).1.hasError = true ∧
    (_parseTriangle qt triangle points r).2 =
      [_parseVertex qt (nodeAt triangle.childNodes 0).toElement,
       _parseVertex qt (nodeAt triangle.childNodes 1).toElement,
       _parseVertex qt (nodeAt triangle.childNodes 2).toElement] ∧
    (∀ a b c, triangle.childNodes = [a, b, c] →
      (_parseTriangle qt triangle points r).2 =
        [{ x := qt.toFloat (a.toElement.attribute "x" "0"),
           y := qt.toFloat (a.toElement.attribute "y" "0") },
         { x := qt.toFloat (b.toElement.attribute "x" "0"),
           y := qt.toFloat (b.toElement.attribute "y" "0") },
         { x := qt.toFloat (c.toElement.attribute "x" "0"),
           y := qt.toFloat (c.toElement.attribute "y" "0") }]) ∧
    (∀ (other : QDomElement) (points2 : List (QPointF F)) (r2 : ProjectReader F),
      other.attribute "shape" "" = "triangle" → other.childNodes = triangle.childNodes →
      (_parseTriangle qt other points2 r2).2 =
        [_parseVertex qt (nodeAt triangle.childNodes 0).toElement,
         _parseVertex qt (nodeAt triangle.childNodes 1).toElement,
         _parseVertex qt (nodeAt triangle.childNodes 2).toElement]) := by
  have ha := parseTriangle_advances qt triangle points r
  refine ⟨?_, ?_, ?_, ?_, ?_⟩
  · refine ⟨if triangle.childNodes.length ≠ 3 then
      [qt.tr "Shape has wrong number of vertices."] else [], ?_⟩
    rw [ha.raised]
    simp [triangleMsgs, h]
  · rw [ha.hasError]
    simp [triangleMsgs, h]
  · simp [_parseTriangle, clear, List.range, List.range.loop]
  · intro a b c habc
    simp [_parseTriangle, clear, List.range, List.range.loop, habc, nodeAt, _parseVertex,
      DomTree.toElement]
  · intro other points2 r2 _ hc
    simp [_parseTriangle, clear, List.range, List.range.loop, hc]

theorem parseTriangle_wrong_shape_witness :
    quadShape.attribute "shape" "" ≠ "triangle" ∧
    (_parseTriangle (qtC (-1)) quadShape [⟨⟨7, 0⟩, ⟨7, 0⟩⟩] reader0).1.raised =
      ["Wrong shape type for destination: quad."] ∧
    (_parseTriangle (qtC (-1)) quadShape [⟨⟨7, 0⟩, ⟨7, 0⟩⟩] reader0).2 =
      [⟨⟨0, 0⟩, ⟨0, 0⟩⟩, ⟨⟨15, 1⟩, ⟨0, 0⟩⟩, ⟨⟨0, 0⟩, ⟨-2, 0⟩⟩] ∧
    (_parseTriangle (qtC (-1))
      (shapeWith [sampleVertex "0" "0", sampleVertex "1.5" "0", sampleVertex "0" "-2"])
      [] reader0).2 = [⟨⟨0, 0⟩, ⟨0, 0⟩⟩, ⟨⟨15, 1⟩, ⟨0, 0⟩⟩, ⟨⟨0, 0⟩, ⟨-2, 0⟩⟩] := by
  have h := parseTriangle_wrong_shape (qtC (-1)) quadShape [⟨⟨7, 0⟩, ⟨7, 0⟩⟩] reader0
    (by decide)
  refine ⟨by decide, by decide, ?_, ?_⟩
  · rw [h.2.2.1]
    decide
  · decide

/-- C16: for every shape element, the null one included, and every initial content
of the output list, `_parseTriangle` leaves exactly three points: point `i` is read
from child node `i` when there is one (from its `x` and `y` attributes when it is
an element that has them), and is (0, 0) when there is none, the default text `0`
converting to 0.0; with more than three children only the first three count. -/
theorem parseTriangle_three_points {F : Type} (qt : Qt F) (triangle : QDomElement)
    (points : List (QPointF F)) (r : ProjectReader F)
    (hzero : qt.floatOf "0" = some qt.zero) :
    (_parseTriangle qt triangle points r).2.length = 3 ∧
    (∀ i, i < 3 → ∀ c, triangle.childNodes.get? i = some c →
      (_parseTriangle qt triangle points r).2.get? i = some (_parseVertex qt c.toElement)) ∧
    (∀ i, i < 3 → ∀ tag attrs children sx sy,
      triangle.childNodes.get? i = some (.element tag attrs children) →
      attrs.lookup "x" = some sx → attrs.lookup "y" = some sy →
      (_parseTriangle qt triangle points r).2.get? i =
        some { x := qt.toFloat sx, y := qt.toFloat sy }) ∧
    (∀ i, i < 3 → triangle.childNodes.get? i = none →
      (_parseTriangle qt triangle points r).2.get? i = some { x := qt.zero, y := qt.zero }) ∧
    (∀ (other : QDomElement) (points2 : List (QPointF F)) (r2 : ProjectReader F),
      other.childNodes.take 3 = triangle.childNodes.take 3 →
      (_parseTriangle qt other points2 r2).2 = (_parseTriangle qt triangle points r).2) := by
  simp only [parseTriangle_points]
  refine ⟨rfl, ?_, ?_, ?_, ?_⟩
  · intro i hi c hc
    rw [trianglePoints_get qt triangle i hi, nodeAt_toElement, hc]
  · intro i hi tag attrs children sx sy hc hx hy
    rw [trianglePoints_get qt triangle i hi, nodeAt_toElement, hc]
    simp [_parseVertex, DomTree.toElement, QDomNode.toElement, QDomElement.attribute,
      QDomElement.attributes, hx, hy]
  · intro i hi hc
    rw [trianglePoints_get qt triangle i hi, nodeAt_toElement, hc]
    simp [parseVertex_null qt hzero]
  · intro other points2 r2 hc
    have hget : ∀ i, i < 3 → other.childNodes.get? i = triangle.childNodes.get? i := by
      intro i hi
      have h1 : (other.childNodes.take 3)[i]? = other.childNodes[i]? := by
        rw [List.getElem?_take]; simp [hi]
      have h2 : (triangle.childNodes.take 3)[i]? = triangle.childNodes[i]? := by
        rw [List.getElem?_take]; simp [hi]
      simp only [List.get?_eq_getElem?]
      rw [← h1, ← h2, hc]
    simp only [trianglePoints, nodeAt, hget 0 (by omega), hget 1 (by omega), hget 2 (by omega)]

theorem parseTriangle_three_points_witness :
    (qtC (-1)).floatOf "0" = some (qtC (-1)).zero ∧
    (_parseTriangle (qtC (-1)) QDomElement.null [⟨⟨7, 0⟩, ⟨7, 0⟩⟩] reader0).2 =
      [⟨⟨0, 0⟩, ⟨0, 0⟩⟩, ⟨⟨0, 0⟩, ⟨0, 0⟩⟩, ⟨⟨0, 0⟩, ⟨0, 0⟩⟩] ∧
    (_parseTriangle (qtC (-1)) (shapeWith [sampleVertex "1" "2"]) [] reader0).2.length = 3 ∧
    (_parseTriangle (qtC (-1)) (shapeWith [sampleVertex "1" "2"]) [] reader0).2.get? 2 =
      some ⟨⟨0, 0⟩, ⟨0, 0⟩⟩ := by
  have h := parseTriangle_three_points (qtC (-1)) (shapeWith [sampleVertex "1" "2"]) []
    reader0 (by decide)
  exact ⟨by decide, by decide, h.1, h.2.2.2.1 2 (by omega) rfl⟩

/-- C17: for a document that passes the root check, the calls of the run are the
`createImagePaint` calls followed by the `createTriangleTextureMapping` calls, so
every image-paint call precedes every mapping call, also when the `mappings`
section stands before the `paints` section in the document. -/
theorem readFile_paints_before_mappings {F : Type} (qt : Qt F) (w : MainWindow F)
    (doc : QDomDocument) (r : ProjectReader F) (hroot : passesRootCheck doc) :
    ∃ ps ms, (readFile qt w (some doc) r).2.calls = r.calls ++ ps ++ ms ∧
      (∀ c ∈ ps, c.isImagePaint = true) ∧
      (∀ c ∈ ms, c.isTriangleTextureMapping = true) ∧
      ps = (sectionNodes doc.documentElement "paints").flatMap
        (fun p => paintCalls qt p.toElement) ∧
      ms = (sectionNodes doc.documentElement "mappings").flatMap
        (fun m => mappingCalls qt m.toElement) := by
  rw [readFile_pass qt w doc r hroot]
  refine ⟨_, _, ?_, ?_, ?_, rfl, rfl⟩
  · rw [(parseProject_advances qt w _ r).calls, projectCalls, List.append_assoc]
  · intro c hc
    obtain ⟨p, -, hp⟩ := List.mem_flatMap.mp hc
    unfold paintCalls at hp
    split at hp
    · rw [List.mem_singleton.mp hp]
      rfl
    · simp at hp
  · intro c hc
    obtain ⟨m, -, hm⟩ := List.mem_flatMap.mp hc
    unfold mappingCalls at hm
    split at hm
    · rw [List.mem_singleton.mp hm]
      rfl
    · simp at hm

theorem readFile_paints_before_mappings_witness :
    passesRootCheck mappingsFirstDoc ∧
    (readFile (qtC (-1)) (echoWindow (-1)) (some mappingsFirstDoc) reader0).2.calls =
      [imagePaintCall (qtC (-1)) (sampleImagePaint "1" "a.png").toElement,
       imagePaintCall (qtC (-1)) (sampleImagePaint "2" "b.png").toElement,
       triangleMappingCall (qtC (-1)) (sampleTriangleMapping "3" "1").toElement] := by
  obtain ⟨ps, ms, hcalls, -, -, hps, hms⟩ :=
    readFile_paints_before_mappings (qtC (-1)) (echoWindow (-1)) mappingsFirstDoc reader0
      (by decide)
  refine ⟨by decide, ?_⟩
  rw [hcalls, hps, hms]
  decide

/-- C18: the recorded-error flag is monotone.  On a reader that has an error
recorded, `_parseTriangle`, `parsePaint`, `parseMapping`, `parseProject` and
`readFile` all leave the flag set, and `readFile` returns false whatever the
document and whatever the window answers. -/
theorem error_flag_monotone {F : Type} (qt : Qt F) (w : MainWindow F) (r : ProjectReader F)
    (hr : r.hasError = true) :
    (∀ triangle points, (_parseTriangle qt triangle points r).1.hasError = true) ∧
    (∀ paint, (parsePaint qt w paint r).hasError = true) ∧
    (∀ mapping, (parseMapping qt w mapping r).hasError = true) ∧
    (∀ project, (parseProject qt w project r).hasError = true) ∧
    (∀ device, (readFile qt w device r).2.hasError = true ∧
      (readFile qt w device r).1 = false) := by
  refine ⟨?_, ?_, ?_, ?_, ?_⟩
  · intro triangle points
    exact hasError_of_advances (parseTriangle_advances qt triangle points r) hr
  · intro paint
    exact hasError_of_advances (parsePaint_advances qt w paint r) hr
  · intro mapping
    exact hasError_of_advances (parseMapping_advances qt w mapping r) hr
  · intro project
    exact hasError_of_advances (parseProject_advances qt w project r) hr
  · intro device
    cases device with
    | none => simp [readFile, hr]
    | some doc =>
      by_cases h : passesRootCheck doc
      · rw [readFile_pass qt w doc r h]
        simp [hasError_of_advances (parseProject_advances qt w _ r) hr]
      · rw [readFile_reject qt w doc r h]
        simp [raiseError]

theorem error_flag_monotone_witness :
    (readFile (qtC (-1)) (echoWindow (-1)) (some wrongVersionDoc) reader0).2.hasError = true ∧
    (readFile (qtC (-1)) (echoWindow (-1)) (some validDoc) reader0).1 = true ∧
    (readFile (qtC (-1)) (echoWindow (-1)) (some validDoc)
      (readFile (qtC (-1)) (echoWindow (-1)) (some wrongVersionDoc) reader0).2).1 = false :=
  ⟨by decide, by decide,
    ((error_flag_monotone (qtC (-1)) (echoWindow (-1))
      (readFile (qtC (-1)) (echoWindow (-1)) (some wrongVersionDoc) reader0).2
      (by decide)).2.2.2.2 (some validDoc)).2⟩

/-- C19: the calls `readFile` issues, with their arguments and order, depend on the
document alone: two runs on the same document against any two windows, from readers
whose windows have received `r1.calls` and `r2.calls`, add the same list of calls. -/
theorem readFile_calls_independent_of_window {F : Type} (qt : Qt F) (w1 w2 : MainWindow F)
    (device : Option QDomDocument) (r1 r2 : ProjectReader F) :
    (readFile qt w1 device r1).2.calls = r1.calls ++ deviceCalls qt device ∧
    (readFile qt w2 device r2).2.calls = r2.calls ++ deviceCalls qt device ∧
    (readFile qt w1 device r1).2.calls = (readFile qt w2 device r1).2.calls :=
  ⟨readFile_calls qt w1 device r1, readFile_calls qt w2 device r2,
    (readFile_calls qt w1 device r1).trans (readFile_calls qt w2 device r1).symm⟩

end MapMap
